import Mathlib

/-!
Verification of the locale-aware formatting engine of this repository
(go-playground/locales style per-locale translators: packages bs, ksf_CM,
ca_IT (src/unnamed/part_001), chr (part_002), es_US (part_003), and the
vendored en_NU, kw, rwk, saq_KE).

Modelling conventions (shallow embedding of the Go code):

* A Go string is modelled as `List Char`.  Every string that the code
  indexes or reverses byte-wise is either ASCII or is only ever reversed
  twice (append-reversed into the buffer, then the whole buffer is
  reversed once at the end), so the char-level model produces exactly the
  bytes the Go code produces.
* Byte indexing `s[0]` on a possibly-empty string is a Go panic when the
  string is empty; it is modelled by `List.head? : Option Char`, and every
  function that can reach such an index returns `Option (List Char)`,
  `none` meaning the call panics.
* The numeric input of the formatters is abstracted by the pair of the
  flag `neg` (the outcome of the Go test `num < 0`) and the string
  `s = strconv.FormatFloat(math.Abs(num), 'f', int(v), 64)`.  `FormatFloat`
  is Go library code outside this repository; its output is any string of
  the shape described by `FFShape` below (a nonempty run of digits,
  followed, when `v > 0`, by a dot and exactly `v` digits).  The capacity
  expression `l := len(s) + ...` of the Go code only sizes the buffer and
  never influences the produced bytes, so it is not modelled; `uint64`
  precisions `v` are modelled by `Nat` (the regime `int(v) >= 0`).
* The plural-rule evaluators read `i := int64(math.Abs(num))` (the
  truncated integer part), the visible-fraction-digit count `v`, the
  fraction-digits-as-integer `f := locales.F(n, v)` (library code outside
  this repository, modelled from the spec: the visible fraction digits read
  as an integer, `0` for integer inputs), and float equalities `n == 1`
  (modelled by integer part together with the flag that |num| is an exact
  integer).  Those projections of the float are taken as the arguments.
* The numeric values of `locales.PluralRule` are library constants outside
  this repository; the numbering (1 = zero, 2 = one, 3 = two, 4 = few,
  5 = many, 6 = other, 0 = unknown) is modelled from the spec together
  with the consistent usage in the locale sources (bs declares {2, 4, 6}
  and returns One/Few/Other, ca_IT declares ordinal {2, 3, 4, 6} and
  returns One/Two/Few/Other, kw declares {2, 3, 6} and returns
  One/Two/Other).
* `strconv.Itoa` / `strconv.AppendInt` are Go library code; they are
  modelled by `natDigits` / `itoaInt` (decimal digits, sign first).
* Struct fields that a locale's `New()` does not set keep Go's zero value:
  the empty string (for example `minus` in ksf_CM, and `decimal`, `group`,
  `minus`, `percent` in kw, rwk, saq_KE).
-/

/-- Plural categories of the locales library (`locales.PluralRule`). -/
inductive PluralRule where
  | unknown
  | zero
  | one
  | two
  | few
  | many
  | other
deriving DecidableEq, Repr

namespace bs

/-- Declared cardinal categories of bs: `[]locales.PluralRule{2, 4, 6}`
(src/unnamed/part_000 line 49). -/
def pluralsCardinal : List PluralRule := [.one, .few, .other]

/-- Declared ordinal categories of bs: `{6}` (part_000 line 50). -/
def pluralsOrdinal : List PluralRule := [.other]

/-- Declared range categories of bs: `{2, 4, 6}` (part_000 line 51). -/
def pluralsRange : List PluralRule := [.one, .few, .other]

/-- Embedding of `bs.CardinalPluralRule` (src/unnamed/part_000 lines
101-118).  `i` is the truncated integer part of |num|, `f` the visible
fraction digits as an integer. -/
def CardinalPluralRule (i v f : Nat) : PluralRule :=
  if (v = 0 ∧ i % 10 = 1 ∧ i % 100 ≠ 11) ∨ (f % 10 = 1 ∧ f % 100 ≠ 11) then
    .one
  else if (v = 0 ∧ 2 ≤ i % 10 ∧ i % 10 ≤ 4 ∧ (i % 100 < 12 ∨ i % 100 > 14)) ∨
      (2 ≤ f % 10 ∧ f % 10 ≤ 4 ∧ (f % 100 < 12 ∨ f % 100 > 14)) then
    .few
  else
    .other

/-- Embedding of `bs.OrdinalPluralRule` (part_000 lines 121-123): it
ignores its arguments and returns Other. -/
def OrdinalPluralRule (_i _v : Nat) : PluralRule := .other

/-- Embedding of `bs.RangePluralRule` (part_000 lines 126-151). -/
def RangePluralRule (i1 v1 f1 i2 v2 f2 : Nat) : PluralRule :=
  let start := CardinalPluralRule i1 v1 f1
  let stop := CardinalPluralRule i2 v2 f2
  if start = .one ∧ stop = .one then .one
  else if start = .one ∧ stop = .few then .few
  else if start = .one ∧ stop = .other then .other
  else if start = .few ∧ stop = .one then .one
  else if start = .few ∧ stop = .few then .few
  else if start = .few ∧ stop = .other then .other
  else if start = .other ∧ stop = .one then .one
  else if start = .other ∧ stop = .few then .few
  else .other

end bs

namespace ksf_CM

/-- Declared cardinal categories of ksf_CM: `nil` (src/unnamed/part_001
line 48). -/
def pluralsCardinal : List PluralRule := []

/-- Embedding of `ksf_CM.CardinalPluralRule` (part_001 lines 92-94): it
ignores its arguments and returns Unknown. -/
def CardinalPluralRule (_i _v : Nat) : PluralRule := .unknown

end ksf_CM

namespace ca_IT

/-- Declared cardinal categories of ca_IT: `{2, 6}` (part_001 line 595). -/
def pluralsCardinal : List PluralRule := [.one, .other]

/-- Embedding of `ca_IT.CardinalPluralRule` (part_001 lines 647-657):
`i := int64(math.Abs(num)); if i == 1 && v == 0`. -/
def CardinalPluralRule (i v : Nat) : PluralRule :=
  if i = 1 ∧ v = 0 then .one else .other

end ca_IT

namespace chr

/-- Declared cardinal categories of chr: `{2, 6}` (src/unnamed/part_002
line 48). -/
def pluralsCardinal : List PluralRule := [.one, .other]

/-- Embedding of `chr.CardinalPluralRule` (part_002 lines 99-108):
`n := math.Abs(num); if n == 1`.  The float test `n == 1` holds exactly
when the integer part is 1 and |num| is an exact integer (`int` flag). -/
def CardinalPluralRule (i : Nat) (int : Bool) : PluralRule :=
  if i = 1 ∧ int then .one else .other

end chr

namespace es_US

/-- Declared cardinal categories of es_US: `{2, 6}` (src/unnamed/part_003
line 49). -/
def pluralsCardinal : List PluralRule := [.one, .other]

/-- Embedding of `es_US.CardinalPluralRule` (part_003 lines 101-110):
`n := math.Abs(num); if n == 1`. -/
def CardinalPluralRule (i : Nat) (int : Bool) : PluralRule :=
  if i = 1 ∧ int then .one else .other

end es_US

namespace en_NU

/-- Declared cardinal categories of en_NU: `{2, 6}` (en_NU.go line 48). -/
def pluralsCardinal : List PluralRule := [.one, .other]

/-- Embedding of `en_NU.CardinalPluralRule` (en_NU.go lines 101-110):
`i := int64(math.Abs(num)); if i == 1 && v == 0`. -/
def CardinalPluralRule (i v : Nat) : PluralRule :=
  if i = 1 ∧ v = 0 then .one else .other

end en_NU

namespace kw

/-- Declared cardinal categories of kw: `{2, 3, 6}` (kw.go line 46). -/
def pluralsCardinal : List PluralRule := [.one, .two, .other]

/-- Embedding of `kw.CardinalPluralRule` (kw.go lines 85-96):
`n := math.Abs(num); if n == 1 ... else if n == 2`. -/
def CardinalPluralRule (i : Nat) (int : Bool) : PluralRule :=
  if i = 1 ∧ int then .one
  else if i = 2 ∧ int then .two
  else .other

end kw

namespace rwk

/-- Declared cardinal categories of rwk: `{2, 6}` (rwk.go line 46). -/
def pluralsCardinal : List PluralRule := [.one, .other]

/-- Embedding of `rwk.CardinalPluralRule` (rwk.go lines 87-96):
`n := math.Abs(num); if n == 1`. -/
def CardinalPluralRule (i : Nat) (int : Bool) : PluralRule :=
  if i = 1 ∧ int then .one else .other

end rwk

namespace saq_KE

/-- Declared cardinal categories of saq_KE: `{2, 6}` (saq_KE.go line 48). -/
def pluralsCardinal : List PluralRule := [.one, .other]

/-- Embedding of `saq_KE.CardinalPluralRule` (saq_KE.go lines 91-100):
`n := math.Abs(num); if n == 1`. -/
def CardinalPluralRule (i : Nat) (int : Bool) : PluralRule :=
  if i = 1 ∧ int then .one else .other

end saq_KE

/-- The locale implementations present in the source. -/
inductive Loc where
  | bs
  | ksf_CM
  | ca_IT
  | chr
  | es_US
  | en_NU
  | kw
  | rwk
  | saq_KE
deriving DecidableEq, Repr

/-- Declared `PluralsCardinal()` list of each locale. -/
def pluralsCardinalOf : Loc → List PluralRule
  | .bs => bs.pluralsCardinal
  | .ksf_CM => ksf_CM.pluralsCardinal
  | .ca_IT => ca_IT.pluralsCardinal
  | .chr => chr.pluralsCardinal
  | .es_US => es_US.pluralsCardinal
  | .en_NU => en_NU.pluralsCardinal
  | .kw => kw.pluralsCardinal
  | .rwk => rwk.pluralsCardinal
  | .saq_KE => saq_KE.pluralsCardinal

/-- Each locale's `CardinalPluralRule` evaluated at an integer `num = n`
with `v = 0`: the integer part is `|n|`, the value is an exact integer,
and the visible fraction digits read as the integer 0. -/
def cardinalAtInt : Loc → Int → PluralRule
  | .bs, n => bs.CardinalPluralRule n.natAbs 0 0
  | .ksf_CM, n => ksf_CM.CardinalPluralRule n.natAbs 0
  | .ca_IT, n => ca_IT.CardinalPluralRule n.natAbs 0
  | .chr, n => chr.CardinalPluralRule n.natAbs true
  | .es_US, n => es_US.CardinalPluralRule n.natAbs true
  | .en_NU, n => en_NU.CardinalPluralRule n.natAbs 0
  | .kw, n => kw.CardinalPluralRule n.natAbs true
  | .rwk, n => rwk.CardinalPluralRule n.natAbs true
  | .saq_KE, n => saq_KE.CardinalPluralRule n.natAbs true

/-- Categories a locale's cardinal evaluator is allowed to produce under
the amended claim C2: the declared set plus Other for locales that declare
cardinal rules, and Unknown alone for locales that declare none. -/
def allowedCardinal (L : Loc) : List PluralRule :=
  match pluralsCardinalOf L with
  | [] => [.unknown]
  | ds => ds ++ [.other]

/-- Spec-side range table of bs: the fixed (start, end) combinations the
spec describes, in source order (part_000 lines 131-147). -/
def bsRangeTable : List ((PluralRule × PluralRule) × PluralRule) :=
  [((.one, .one), .one),
   ((.one, .few), .few),
   ((.one, .other), .other),
   ((.few, .one), .one),
   ((.few, .few), .few),
   ((.few, .other), .other),
   ((.other, .one), .one),
   ((.other, .few), .few)]

/-- Spec-side combination function: look the pair up in the fixed table,
with every unlisted combination defaulting to Other. -/
def bsRangeCombine (a b : PluralRule) : PluralRule :=
  (List.lookup (a, b) bsRangeTable).getD .other

namespace bs

/-- Currency symbol table of the locale (New(): `currencies`, index = currency enum). -/
def currencies : List String :=
  ["ADP", "AED", "AFA", "AFN", "ALK", "ALL", "AMD", "ANG", "AOA", "AOK", "AON", "AOR", "ARA", "ARL", "ARM", "ARP", "ARS", "ATS", "AUD", "AWG", "AZM", "AZN", "BAD", "KM", "BAN", "BBD", "BDT", "BEC", "BEF", "BEL", "BGL", "BGM", "BGN", "BGO", "BHD", "BIF", "BMD", "BND", "BOB", "BOL", "BOP", "BOV", "BRB", "BRC", "BRE", "BRL", "BRN", "BRR", "BRZ", "BSD", "BTN", "BUK", "BWP", "BYB", "BYN", "BYR", "BZD", "CAD", "CDF", "CHE", "CHF", "CHW", "CLE", "CLF", "CLP", "CNX", "CNY", "COP", "COU", "CRC", "CSD", "CSK", "CUC", "CUP", "CVE", "CYP", "CZK", "DDM", "DEM", "DJF", "DKK", "DOP", "DZD", "ECS", "ECV", "EEK", "EGP", "ERN", "ESA", "ESB", "ESP", "ETB", "€", "FIM", "FJD", "FKP", "FRF", "GBP", "GEK", "GEL", "GHC", "GHS", "GIP", "GMD", "GNF", "GNS", "GQE", "GRD", "GTQ", "GWE", "GWP", "GYD", "HKD", "HNL", "HRD", "kn", "HTG", "HUF", "IDR", "IEP", "ILP", "ILR", "ILS", "₹", "IQD", "IRR", "ISJ", "ISK", "ITL", "JMD", "JOD", "¥", "KES", "KGS", "KHR", "KMF", "KPW", "KRH", "KRO", "₩", "KWD", "KYD", "KZT", "LAK", "LBP", "LKR", "LRD", "LSL", "LTL", "LTT", "LUC", "LUF", "LUL", "LVL", "LVR", "LYD", "MAD", "MAF", "MCF", "MDC", "MDL", "MGA", "MGF", "MKD", "MKN", "MLF", "MMK", "MNT", "MOP", "MRO", "MTL", "MTP", "MUR", "MVP", "MVR", "MWK", "MXN", "MXP", "MXV", "MYR", "MZE", "MZM", "MZN", "NAD", "NGN", "NIC", "NIO", "NLG", "NOK", "NPR", "NZD", "OMR", "PAB", "PEI", "PEN", "PES", "PGK", "PHP", "PKR", "PLN", "PLZ", "PTE", "PYG", "QAR", "RHD", "ROL", "RON", "din.", "RUB", "RUR", "RWF", "SAR", "SBD", "SCR", "SDD", "SDG", "SDP", "SEK", "SGD", "SHP", "SIT", "SKK", "SLL", "SOS", "SRD", "SRG", "SSP", "STD", "SUR", "SVC", "SYP", "SZL", "฿", "TJR", "TJS", "TMM", "TMT", "TND", "TOP", "TPE", "TRL", "TRY", "TTD", "NT$", "TZS", "UAH", "UAK", "UGS", "UGX", "USD", "USN", "USS", "UYI", "UYP", "UYU", "UZS", "VEB", "VEF", "₫", "VNN", "VUV", "WST", "FCFA", "XAG", "XAU", "XBA", "XBB", "XBC", "XBD", "XCD", "XDR", "XEU", "XFO", "XFU", "CFA", "XPD", "XPF", "XPT", "XRE", "XSU", "XTS", "XUA", "XXX", "YDD", "YER", "YUD", "YUM", "YUN", "YUR", "ZAL", "ZAR", "ZMK", "ZMW", "ZRN", "ZRZ", "ZWD", "ZWL", "ZWR"]

/-- Timezone abbreviation to localized-name table of the locale (New(): `timezones`). -/
def timezones : List (String × String) :=
  [("MDT", "Makao letnje računanje vremena"),
   ("PDT", "Sjevernoameričko pacifičko ljetno vrijeme"),
   ("OEZ", "Istočnoevropsko standardno vrijeme"),
   ("WEZ", "Zapadnoevropsko standardno vrijeme"),
   ("HKT", "Hongkonško standardno vrijeme"),
   ("COT", "Kolumbijsko standardno vrijeme"),
   ("CDT", "Sjevernoameričko centralno ljetno vrijeme"),
   ("JST", "Japansko standardno vrijeme"),
   ("AST", "Sjevernoameričko atlantsko standardno vrijeme"),
   ("MST", "Makao standardno vreme"),
   ("AEDT", "Istočnoaustralijsko ljetno vrijeme"),
   ("WIT", "Istočnoindonezijsko vrijeme"),
   ("ECT", "Ekvadorsko vrijeme"),
   ("HEEG", "Istočnogrenlandsko ljetno vrijeme"),
   ("CST", "Sjevernoameričko centralno standardno vrijeme"),
   ("TMT", "Turkmenistansko standardno vrijeme"),
   ("HKST", "Hongkonško ljetno vrijeme"),
   ("ACST", "Centralnoaustralijsko standardno vrijeme"),
   ("HEPMX", "Meksičko pacifičko ljetno vrijeme"),
   ("AWST", "Zapadnoaustralijsko standardno vrijeme"),
   ("CLST", "Čileansko ljetno vrijeme"),
   ("ARST", "Argentinsko ljetno vrijeme"),
   ("COST", "Kolumbijsko ljetno vrijeme"),
   ("HNPM", "Standardno vrijeme na Ostrvima Sen Pjer i Mikelon"),
   ("LHDT", "Ljetno vrijeme na Ostrvu Lord Hau"),
   ("SRT", "Surinamsko vrijeme"),
   ("BOT", "Bolivijsko vrijeme"),
   ("MESZ", "Centralnoevropsko ljetno vrijeme"),
   ("ART", "Argentinsko standardno vrijeme"),
   ("HNNOMX", "Sjeverozapadno meksičko standardno vrijeme"),
   ("∅∅∅", "Peruansko ljetno vrijeme"),
   ("WITA", "Centralnoindonezijsko vrijeme"),
   ("HNPMX", "Meksičko pacifičko standardno vrijeme"),
   ("VET", "Venecuelansko vrijeme"),
   ("ADT", "Sjevernoameričko atlantsko ljetno vrijeme"),
   ("EAT", "Istočnoafričko vrijeme"),
   ("CAT", "Centralnoafričko vrijeme"),
   ("CHAST", "Čatamsko standardno vrijeme"),
   ("CHADT", "Čatamsko ljetno vrijeme"),
   ("SGT", "Singapursko standardno vrijeme"),
   ("HENOMX", "Sjeverozapadno meksičko ljetno vrijeme"),
   ("HNEG", "Istočnogrenlandsko standardno vrijeme"),
   ("AKDT", "Aljaskansko ljetno vrijeme"),
   ("ChST", "Čamorsko standardno vrijeme"),
   ("HECU", "Kubansko ljetno vrijeme"),
   ("ACWDT", "Australijsko centralnozapadno ljetno vrijeme"),
   ("SAST", "Južnoafričko standardno vrijeme"),
   ("GMT", "Griničko vrijeme"),
   ("WAST", "Zapadnoafričko ljetno vrijeme"),
   ("EST", "Sjevernoameričko istočno standardno vrijeme"),
   ("AKST", "Aljaskansko standardno vrijeme"),
   ("HEPM", "Ljetno vrijeme na Ostrvima Sen Pjer i Mikelon"),
   ("JDT", "Japansko ljetno vrijeme"),
   ("HNOG", "Zapadnogrenlandsko standardno vrijeme"),
   ("MYT", "Malezijsko vrijeme"),
   ("BT", "Butansko vrijeme"),
   ("GYT", "Gvajansko vrijeme"),
   ("NZST", "Novozelandsko standardno vrijeme"),
   ("IST", "Indijsko standardno vrijeme"),
   ("WART", "Zapadnoargentinsko standardno vrijeme"),
   ("WESZ", "Zapadnoevropsko ljetno vrijeme"),
   ("LHST", "Standardno vrijeme na Ostrvu Lord Hau"),
   ("AWDT", "Zapadnoaustralijsko ljetno vrijeme"),
   ("HADT", "Havajsko-aleućansko ljetno vrijeme"),
   ("HNT", "Njufaundlendsko standardno vrijeme"),
   ("MEZ", "Centralnoevropsko standardno vrijeme"),
   ("CLT", "Čileansko standardno vrijeme"),
   ("ACDT", "Centralnoaustralijsko ljetno vrijeme"),
   ("HNCU", "Kubansko standardno vrijeme"),
   ("WIB", "Zapadnoindonezijsko vrijeme"),
   ("PST", "Sjevernoameričko pacifičko standardno vrijeme"),
   ("HAST", "Havajsko-aleućansko standardno vrijeme"),
   ("ACWST", "Australijsko centralnozapadno standardno vrijeme"),
   ("NZDT", "Novozelandsko ljetno vrijeme"),
   ("HEOG", "Zapadnogrenlandsko ljetno vrijeme"),
   ("OESZ", "Istočnoevropsko ljetno vrijeme"),
   ("WAT", "Zapadnoafričko standardno vrijeme"),
   ("HAT", "Njufaundlendsko ljetno vrijeme"),
   ("UYST", "Urugvajsko ljetno vrijeme"),
   ("UYT", "Urugvajsko standardno vrijeme"),
   ("WARST", "Zapadnoargentinsko ljetno vrijeme"),
   ("TMST", "Turkmenistansko ljetno vrijeme"),
   ("EDT", "Sjevernoameričko istočno ljetno vrijeme"),
   ("GFT", "Francuskogvajansko vrijeme"),
   ("AEST", "Istočnoaustralijsko standardno vrijeme")]

end bs

namespace ksf_CM

/-- Currency symbol table of the locale (New(): `currencies`, index = currency enum). -/
def currencies : List String :=
  ["ADP", "AED", "AFA", "AFN", "ALK", "ALL", "AMD", "ANG", "AOA", "AOK", "AON", "AOR", "ARA", "ARL", "ARM", "ARP", "ARS", "ATS", "AUD", "AWG", "AZM", "AZN", "BAD", "BAM", "BAN", "BBD", "BDT", "BEC", "BEF", "BEL", "BGL", "BGM", "BGN", "BGO", "BHD", "BIF", "BMD", "BND", "BOB", "BOL", "BOP", "BOV", "BRB", "BRC", "BRE", "BRL", "BRN", "BRR", "BRZ", "BSD", "BTN", "BUK", "BWP", "BYB", "BYN", "BYR", "BZD", "CAD", "CDF", "CHE", "CHF", "CHW", "CLE", "CLF", "CLP", "CNX", "CNY", "COP", "COU", "CRC", "CSD", "CSK", "CUC", "CUP", "CVE", "CYP", "CZK", "DDM", "DEM", "DJF", "DKK", "DOP", "DZD", "ECS", "ECV", "EEK", "EGP", "ERN", "ESA", "ESB", "ESP", "ETB", "EUR", "FIM", "FJD", "FKP", "FRF", "GBP", "GEK", "GEL", "GHC", "GHS", "GIP", "GMD", "GNF", "GNS", "GQE", "GRD", "GTQ", "GWE", "GWP", "GYD", "HKD", "HNL", "HRD", "HRK", "HTG", "HUF", "IDR", "IEP", "ILP", "ILR", "ILS", "INR", "IQD", "IRR", "ISJ", "ISK", "ITL", "JMD", "JOD", "JPY", "KES", "KGS", "KHR", "KMF", "KPW", "KRH", "KRO", "KRW", "KWD", "KYD", "KZT", "LAK", "LBP", "LKR", "LRD", "LSL", "LTL", "LTT", "LUC", "LUF", "LUL", "LVL", "LVR", "LYD", "MAD", "MAF", "MCF", "MDC", "MDL", "MGA", "MGF", "MKD", "MKN", "MLF", "MMK", "MNT", "MOP", "MRO", "MTL", "MTP", "MUR", "MVP", "MVR", "MWK", "MXN", "MXP", "MXV", "MYR", "MZE", "MZM", "MZN", "NAD", "NGN", "NIC", "NIO", "NLG", "NOK", "NPR", "NZD", "OMR", "PAB", "PEI", "PEN", "PES", "PGK", "PHP", "PKR", "PLN", "PLZ", "PTE", "PYG", "QAR", "RHD", "ROL", "RON", "RSD", "RUB", "RUR", "RWF", "SAR", "SBD", "SCR", "SDD", "SDG", "SDP", "SEK", "SGD", "SHP", "SIT", "SKK", "SLL", "SOS", "SRD", "SRG", "SSP", "STD", "SUR", "SVC", "SYP", "SZL", "THB", "TJR", "TJS", "TMM", "TMT", "TND", "TOP", "TPE", "TRL", "TRY", "TTD", "TWD", "TZS", "UAH", "UAK", "UGS", "UGX", "USD", "USN", "USS", "UYI", "UYP", "UYU", "UZS", "VEB", "VEF", "VND", "VNN", "VUV", "WST", "XAF", "XAG", "XAU", "XBA", "XBB", "XBC", "XBD", "XCD", "XDR", "XEU", "XFO", "XFU", "XOF", "XPD", "XPF", "XPT", "XRE", "XSU", "XTS", "XUA", "XXX", "YDD", "YER", "YUD", "YUM", "YUN", "YUR", "ZAL", "ZAR", "ZMK", "ZMW", "ZRN", "ZRZ", "ZWD", "ZWL", "ZWR"]

/-- Timezone abbreviation to localized-name table of the locale (New(): `timezones`). -/
def timezones : List (String × String) :=
  [("HEPMX", "HEPMX"),
   ("IST", "IST"),
   ("ACST", "ACST"),
   ("∅∅∅", "∅∅∅"),
   ("WIB", "WIB"),
   ("NZDT", "NZDT"),
   ("MEZ", "MEZ"),
   ("ADT", "ADT"),
   ("HNCU", "HNCU"),
   ("MESZ", "MESZ"),
   ("AST", "AST"),
   ("WEZ", "WEZ"),
   ("EDT", "EDT"),
   ("BT", "BT"),
   ("LHST", "LHST"),
   ("PDT", "PDT"),
   ("HNOG", "HNOG"),
   ("GMT", "GMT"),
   ("TMT", "TMT"),
   ("HEPM", "HEPM"),
   ("OESZ", "OESZ"),
   ("MYT", "MYT"),
   ("TMST", "TMST"),
   ("HNNOMX", "HNNOMX"),
   ("WITA", "WITA"),
   ("ECT", "ECT"),
   ("ACWDT", "ACWDT"),
   ("NZST", "NZST"),
   ("MDT", "MDT"),
   ("HNEG", "HNEG"),
   ("UYST", "UYST"),
   ("VET", "VET"),
   ("OEZ", "OEZ"),
   ("EST", "EST"),
   ("HAT", "HAT"),
   ("ChST", "ChST"),
   ("HAST", "HAST"),
   ("HADT", "HADT"),
   ("WARST", "WARST"),
   ("ACDT", "ACDT"),
   ("AKST", "AKST"),
   ("LHDT", "LHDT"),
   ("WIT", "WIT"),
   ("CHAST", "CHAST"),
   ("WART", "WART"),
   ("CLST", "CLST"),
   ("WAT", "WAT"),
   ("COT", "COT"),
   ("EAT", "EAT"),
   ("HECU", "HECU"),
   ("CHADT", "CHADT"),
   ("CAT", "CAT"),
   ("HENOMX", "HENOMX"),
   ("SAST", "SAST"),
   ("AWST", "AWST"),
   ("JST", "JST"),
   ("COST", "COST"),
   ("AKDT", "AKDT"),
   ("HNPMX", "HNPMX"),
   ("BOT", "BOT"),
   ("CLT", "CLT"),
   ("HNT", "HNT"),
   ("AEST", "AEST"),
   ("HNPM", "HNPM"),
   ("ART", "ART"),
   ("GYT", "GYT"),
   ("CST", "CST"),
   ("CDT", "CDT"),
   ("PST", "PST"),
   ("ACWST", "ACWST"),
   ("JDT", "JDT"),
   ("MST", "MST"),
   ("WAST", "WAST"),
   ("UYT", "UYT"),
   ("AWDT", "AWDT"),
   ("SGT", "SGT"),
   ("ARST", "ARST"),
   ("HKT", "HKT"),
   ("AEDT", "AEDT"),
   ("GFT", "GFT"),
   ("SRT", "SRT"),
   ("HEOG", "HEOG"),
   ("WESZ", "WESZ"),
   ("HKST", "HKST"),
   ("HEEG", "HEEG")]

end ksf_CM

namespace ca_IT

/-- Currency symbol table of the locale (New(): `currencies`, index = currency enum). -/
def currencies : List String :=
  ["ADP", "AED", "AFA", "AFN", "ALK", "ALL", "AMD", "ANG", "AOA", "AOK", "AON", "AOR", "ARA", "ARL", "ARM", "ARP", "ARS", "ATS", "AUD", "AWG", "AZM", "AZN", "BAD", "BAM", "BAN", "BBD", "BDT", "BEC", "BEF", "BEL", "BGL", "BGM", "BGN", "BGO", "BHD", "BIF", "BMD", "BND", "BOB", "BOL", "BOP", "BOV", "BRB", "BRC", "BRE", "BRL", "BRN", "BRR", "BRZ", "BSD", "BTN", "BUK", "BWP", "BYB", "BYN", "BYR", "BZD", "CAD", "CDF", "CHE", "CHF", "CHW", "CLE", "CLF", "CLP", "CNX", "CNY", "COP", "COU", "CRC", "CSD", "CSK", "CUC", "CUP", "CVE", "CYP", "CZK", "DDM", "DEM", "DJF", "DKK", "DOP", "DZD", "ECS", "ECV", "EEK", "EGP", "ERN", "ESA", "ESB", "ESP", "ETB", "EUR", "FIM", "FJD", "FKP", "FRF", "GBP", "GEK", "GEL", "GHC", "GHS", "GIP", "GMD", "GNF", "GNS", "GQE", "GRD", "GTQ", "GWE", "GWP", "GYD", "HKD", "HNL", "HRD", "HRK", "HTG", "HUF", "IDR", "IEP", "ILP", "ILR", "ILS", "INR", "IQD", "IRR", "ISJ", "ISK", "ITL", "JMD", "JOD", "JPY", "KES", "KGS", "KHR", "KMF", "KPW", "KRH", "KRO", "KRW", "KWD", "KYD", "KZT", "LAK", "LBP", "LKR", "LRD", "LSL", "LTL", "LTT", "LUC", "LUF", "LUL", "LVL", "LVR", "LYD", "MAD", "MAF", "MCF", "MDC", "MDL", "MGA", "MGF", "MKD", "MKN", "MLF", "MMK", "MNT", "MOP", "MRO", "MTL", "MTP", "MUR", "MVP", "MVR", "MWK", "MXN", "MXP", "MXV", "MYR", "MZE", "MZM", "MZN", "NAD", "NGN", "NIC", "NIO", "NLG", "NOK", "NPR", "NZD", "OMR", "PAB", "PEI", "PEN", "PES", "PGK", "PHP", "PKR", "PLN", "PLZ", "PTE", "PYG", "QAR", "RHD", "ROL", "RON", "RSD", "RUB", "RUR", "RWF", "SAR", "SBD", "SCR", "SDD", "SDG", "SDP", "SEK", "SGD", "SHP", "SIT", "SKK", "SLL", "SOS", "SRD", "SRG", "SSP", "STD", "SUR", "SVC", "SYP", "SZL", "THB", "TJR", "TJS", "TMM", "TMT", "TND", "TOP", "TPE", "TRL", "TRY", "TTD", "TWD", "TZS", "UAH", "UAK", "UGS", "UGX", "USD", "USN", "USS", "UYI", "UYP", "UYU", "UZS", "VEB", "VEF", "VND", "VNN", "VUV", "WST", "XAF", "XAG", "XAU", "XBA", "XBB", "XBC", "XBD", "XCD", "XDR", "XEU", "XFO", "XFU", "XOF", "XPD", "XPF", "XPT", "XRE", "XSU", "XTS", "XUA", "XXX", "YDD", "YER", "YUD", "YUM", "YUN", "YUR", "ZAL", "ZAR", "ZMK", "ZMW", "ZRN", "ZRZ", "ZWD", "ZWL", "ZWR"]

/-- Timezone abbreviation to localized-name table of the locale (New(): `timezones`). -/
def timezones : List (String × String) :=
  [("MST", "Hora estàndard de muntanya d’Amèrica del Nord"),
   ("HEPMX", "Hora d’estiu del Pacífic de Mèxic"),
   ("CST", "Hora estàndard central d’Amèrica del Nord"),
   ("CDT", "Hora d’estiu central d’Amèrica del Nord"),
   ("MYT", "Hora de Malàisia"),
   ("ART", "Hora estàndard de l’Argentina"),
   ("HKT", "Hora estàndard de Hong Kong"),
   ("AKDT", "Hora d’estiu d’Alaska"),
   ("HNEG", "Hora estàndard de l’Est de Grenlàndia"),
   ("WESZ", "Hora d’estiu de l’Oest d’Europa"),
   ("CLST", "Hora d’estiu de Xile"),
   ("HKST", "Hora d’estiu de Hong Kong"),
   ("BT", "Hora de Bhutan"),
   ("HAST", "Hora estàndard de Hawaii-Aleutianes"),
   ("VET", "Hora de Veneçuela"),
   ("ARST", "Hora d’estiu de l’Argentina"),
   ("SAST", "Hora estàndard del sud de l’Àfrica"),
   ("MESZ", "Hora d’estiu del Centre d’Europa"),
   ("HNPMX", "Hora estàndard del Pacífic de Mèxic"),
   ("HEOG", "Hora d’estiu de l’Oest de Grenlàndia"),
   ("WART", "Hora estàndard de l’oest de l’Argentina"),
   ("TMT", "Hora estàndard del Turkmenistan"),
   ("EST", "Hora estàndard oriental d’Amèrica del Nord"),
   ("ECT", "Hora de l’Equador"),
   ("UYT", "Hora estàndard de l’Uruguai"),
   ("SRT", "Hora de Surinam"),
   ("WIB", "Hora de l’oest d’Indonèsia"),
   ("JST", "Hora estàndard del Japó"),
   ("ACDT", "Hora d’estiu d’Austràlia Central"),
   ("COT", "Hora estàndard de Colòmbia"),
   ("AEST", "Hora estàndard d’Austràlia Oriental"),
   ("EAT", "Hora de l’Àfrica Oriental"),
   ("COST", "Hora d’estiu de Colòmbia"),
   ("HNT", "Hora estàndard de Terranova"),
   ("BOT", "Hora de Bolívia"),
   ("HADT", "Hora d’estiu de Hawaii-Aleutianes"),
   ("IST", "Hora estàndard de l’Índia"),
   ("HENOMX", "Hora d’estiu del nord-oest de Mèxic"),
   ("SGT", "Hora de Singapur"),
   ("PST", "Hora estàndard del Pacífic"),
   ("WARST", "Hora d’estiu de l’oest de l’Argentina"),
   ("WAST", "Hora d’estiu de l’Àfrica Occidental"),
   ("HEPM", "Hora d’estiu de Saint-Pierre i Miquelon"),
   ("WIT", "Hora de l’est d’Indonèsia"),
   ("AWDT", "Hora d’estiu d’Austràlia Occidental"),
   ("PDT", "Hora d’estiu del Pacífic"),
   ("WEZ", "Hora estàndard de l’Oest d’Europa"),
   ("TMST", "Hora d’estiu del Turkmenistan"),
   ("MDT", "Hora d’estiu de muntanya d’Amèrica del Nord"),
   ("AEDT", "Hora d’estiu d’Austràlia Oriental"),
   ("AST", "Hora estàndard de l’Atlàntic"),
   ("CLT", "Hora estàndard de Xile"),
   ("AKST", "Hora estàndard d’Alaska"),
   ("LHST", "Hora estàndard de Lord Howe"),
   ("HECU", "Hora d’estiu de Cuba"),
   ("ACWST", "Hora estàndard d’Austràlia centre-occidental"),
   ("MEZ", "Hora estàndard del Centre d’Europa"),
   ("OESZ", "Hora d’estiu de l’Est d’Europa"),
   ("WAT", "Hora estàndard de l’Àfrica Occidental"),
   ("ACST", "Hora estàndard d’Austràlia Central"),
   ("UYST", "Hora d’estiu de l’Uruguai"),
   ("HEEG", "Hora d’estiu de l’Est de Grenlàndia"),
   ("∅∅∅", "∅∅∅"),
   ("HNCU", "Hora estàndard de Cuba"),
   ("ACWDT", "Hora d’estiu d’Austràlia centre-occidental"),
   ("NZST", "Hora estàndard de Nova Zelanda"),
   ("HNOG", "Hora estàndard de l’Oest de Grenlàndia"),
   ("OEZ", "Hora estàndard de l’Est d’Europa"),
   ("HAT", "Hora d’estiu de Terranova"),
   ("EDT", "Hora d’estiu oriental d’Amèrica del Nord"),
   ("HNNOMX", "Hora estàndard del nord-oest de Mèxic"),
   ("GMT", "Hora del Meridià de Greenwich"),
   ("GYT", "Hora de Guyana"),
   ("CAT", "Hora de l’Àfrica Central"),
   ("NZDT", "Hora d’estiu de Nova Zelanda"),
   ("JDT", "Hora d’estiu del Japó"),
   ("WITA", "Hora central d’Indonèsia"),
   ("AWST", "Hora estàndard d’Austràlia Occidental"),
   ("ChST", "Hora de Chamorro"),
   ("HNPM", "Hora estàndard de Saint-Pierre i Miquelon"),
   ("LHDT", "Horari d’estiu de Lord Howe"),
   ("CHAST", "Hora estàndard de Chatham"),
   ("CHADT", "Hora d’estiu de Chatham"),
   ("ADT", "Hora d’estiu de l’Atlàntic"),
   ("GFT", "Hora de la Guaiana Francesa")]

end ca_IT

namespace chr

/-- Currency symbol table of the locale (New(): `currencies`, index = currency enum). -/
def currencies : List String :=
  ["ADP", "AED", "AFA", "AFN", "ALK", "ALL", "AMD", "ANG", "AOA", "AOK", "AON", "AOR", "ARA", "ARL", "ARM", "ARP", "ARS", "ATS", "A$", "AWG", "AZM", "AZN", "BAD", "BAM", "BAN", "BBD", "BDT", "BEC", "BEF", "BEL", "BGL", "BGM", "BGN", "BGO", "BHD", "BIF", "BMD", "BND", "BOB", "BOL", "BOP", "BOV", "BRB", "BRC", "BRE", "R$", "BRN", "BRR", "BRZ", "BSD", "BTN", "BUK", "BWP", "BYB", "BYN", "BYR", "BZD", "CA$", "CDF", "CHE", "CHF", "CHW", "CLE", "CLF", "CLP", "CNX", "CN¥", "COP", "COU", "CRC", "CSD", "CSK", "CUC", "CUP", "CVE", "CYP", "CZK", "DDM", "DEM", "DJF", "DKK", "DOP", "DZD", "ECS", "ECV", "EEK", "EGP", "ERN", "ESA", "ESB", "ESP", "ETB", "€", "FIM", "FJD", "FKP", "FRF", "£", "GEK", "GEL", "GHC", "GHS", "GIP", "GMD", "GNF", "GNS", "GQE", "GRD", "GTQ", "GWE", "GWP", "GYD", "HK$", "HNL", "HRD", "HRK", "HTG", "HUF", "IDR", "IEP", "ILP", "ILR", "₪", "₹", "IQD", "IRR", "ISJ", "ISK", "ITL", "JMD", "JOD", "JP¥", "KES", "KGS", "KHR", "KMF", "KPW", "KRH", "KRO", "₩", "KWD", "KYD", "KZT", "LAK", "LBP", "LKR", "LRD", "LSL", "LTL", "LTT", "LUC", "LUF", "LUL", "LVL", "LVR", "LYD", "MAD", "MAF", "MCF", "MDC", "MDL", "MGA", "MGF", "MKD", "MKN", "MLF", "MMK", "MNT", "MOP", "MRO", "MTL", "MTP", "MUR", "MVP", "MVR", "MWK", "MX$", "MXP", "MXV", "MYR", "MZE", "MZM", "MZN", "NAD", "NGN", "NIC", "NIO", "NLG", "NOK", "NPR", "NZ$", "OMR", "PAB", "PEI", "PEN", "PES", "PGK", "PHP", "PKR", "PLN", "PLZ", "PTE", "PYG", "QAR", "RHD", "ROL", "RON", "RSD", "RUB", "RUR", "RWF", "SAR", "SBD", "SCR", "SDD", "SDG", "SDP", "SEK", "SGD", "SHP", "SIT", "SKK", "SLL", "SOS", "SRD", "SRG", "SSP", "STD", "SUR", "SVC", "SYP", "SZL", "THB", "TJR", "TJS", "TMM", "TMT", "TND", "TOP", "TPE", "TRL", "TRY", "TTD", "NT$", "TZS", "UAH", "UAK", "UGS", "UGX", "$", "USN", "USS", "UYI", "UYP", "UYU", "UZS", "VEB", "VEF", "₫", "VNN", "VUV", "WST", "FCFA", "XAG", "XAU", "XBA", "XBB", "XBC", "XBD", "EC$", "XDR", "XEU", "XFO", "XFU", "CFA", "XPD", "CFPF", "XPT", "XRE", "XSU", "XTS", "XUA", "XXX", "YDD", "YER", "YUD", "YUM", "YUN", "YUR", "ZAL", "ZAR", "ZMK", "ZMW", "ZRN", "ZRZ", "ZWD", "ZWL", "ZWR"]

/-- Timezone abbreviation to localized-name table of the locale (New(): `timezones`). -/
def timezones : List (String × String) :=
  [("AWDT", "ᎡᎳᏗᏜ ᏭᏕᎵᎬ ᏗᏜ ᎪᎯ ᎢᎦ ᎠᏟᎢᎵᏒᎩ"),
   ("CHADT", "ᏣᏝᎻ ᎪᎯ ᎢᎦ ᎠᏟᎢᎵᏒᎩ"),
   ("WEZ", "ᏭᏕᎵᎬ ᏗᏜ ᏳᎳᏈ ᎠᏟᎶᏍᏗ ᎠᏟᎢᎵᏒ"),
   ("HNT", "ᎢᏤᎤᏂᏩᏛᏓᎦᏙᎯ ᎠᏟᎶᏍᏗ ᎠᏟᎢᎵᏒ"),
   ("HADT", "ᎭᏩᏱ-ᎠᎵᏳᏏᎠᏂ ᎪᎯ ᎢᎦ ᎠᏟᎢᎵᏍᏒᎩ"),
   ("MESZ", "ᎠᏰᏟ ᏳᎳᏈ ᎪᎩ ᎠᏟᎢᎵᏒ"),
   ("OEZ", "ᏗᎧᎸᎬ ᏗᏜ ᏳᎳᏈ ᎠᏟᎶᏍᏗ ᎠᏟᎢᎵᏒ"),
   ("TMT", "ᏛᎵᎩᎺᏂᏍᏔᏂ ᎠᏟᎶᏍᏗ ᎠᏟᎢᎵᏒ"),
   ("EDT", "ᏗᎧᎸᎬ ᏗᏜ ᎪᎯ ᎢᎦ ᎠᏟᎢᎵᏍᏒᎩ"),
   ("HNCU", "ᎫᏆ ᎠᏟᎶᏍᏗ ᎠᏟᎢᎵᏒ"),
   ("NZDT", "ᎢᏤ ᏏᎢᎴᏂᏗ ᎪᎯ ᎢᎦ ᎠᏟᎢᎵᏒᎩ"),
   ("HEOG", "ᏭᏕᎵᎬ ᎢᏤᏍᏛᏱ ᎪᎩ ᎠᏟᎢᎵᏒ"),
   ("ACST", "ᎠᏰᏟ ᎡᎳᏗᏜ ᎠᏟᎶᏍᏗ ᎠᏟᎢᎵᏒ"),
   ("WITA", "ᎠᏰᏟ ᎢᏂᏙᏂᏍᏯ ᎠᏟᎢᎵᏒ"),
   ("PDT", "ᏭᏕᎵᎬ ᎪᎯ ᎢᎦ ᎠᏟᎢᎵᏍᏒᎩ"),
   ("HNEG", "ᏗᎧᎸᎬ ᎢᏤᏍᏛᏱ ᎠᏟᎶᏍᏗ ᎠᎵᎢᎵᏒ"),
   ("UYST", "ᏳᎷᏇ ᎪᎩ ᎠᏟᎢᎵᏒ"),
   ("LHST", "ᎤᎬᏫᏳᎯ ᎭᏫ ᎠᏟᎶᏍᏗ ᎠᏟᎢᎵᏒ"),
   ("LHDT", "ᎤᎬᏫᏳᎯ ᎭᏫ ᎪᎯ ᎢᎦ ᎠᏟᎢᎵᏒᎩ"),
   ("SAST", "ᏧᎦᎾᏮ ᎬᎿᎨᏍᏛ ᎠᏟᎶᏍᏗ ᎠᏟᎢᎵᏒ"),
   ("GYT", "ᎦᏯᎾ ᎠᏟᎢᎵᏒ"),
   ("CST", "ᎠᏰᏟ ᎠᏟᎶᏍᏗ ᎠᏟᎢᎵᏒ"),
   ("JDT", "ᏣᏩᏂᏏ ᎪᎯ ᎢᎦ ᎠᏟᎢᎵᏒᎩ"),
   ("WARST", "ᏭᏕᎵᎬ ᏗᏜ ᎠᏥᏂᏘᏂᎠ ᎪᎩ ᎠᏟᎶᏍᏗ ᎠᏟᎢᎵᏒ"),
   ("HECU", "ᎫᏆ ᎪᎯ ᎢᎦ ᎠᏟᎢᎵᏍᏒᎩ"),
   ("EAT", "ᏗᎧᎸᎬ ᎬᎿᎨᏍᏛ ᎠᏟᎢᎵᏒ"),
   ("HEEG", "ᏗᎧᎸᎬ ᎢᏤᏍᏛᏱ ᎪᎩ ᎠᏟᎢᎵᏒ"),
   ("BT", "ᏊᏔᏂ ᎠᏟᎢᎵᏒ"),
   ("ACDT", "ᎠᏰᏟ ᎡᎳᏗᏜ ᎪᎯ ᎢᎦ ᎠᏟᎢᎵᏒᎩ"),
   ("HEPMX", "ᎠᏂᏍᏆᏂ ᏭᏕᎵᎬ ᎪᎯ ᎢᎦ ᎠᏟᎢᎵᏍᏒᎩ"),
   ("CDT", "ᎠᏰᏟ ᎪᎯ ᎢᎦ ᎠᏟᎢᎵᏍᏒᎩ"),
   ("BOT", "ᏉᎵᏫᎠ ᎠᏟᎢᎵᏒ"),
   ("NZST", "ᎢᏤ ᏏᎢᎴᏂᏗ ᎠᏟᎶᏍᏗ ᎠᏟᎢᎵᏒ"),
   ("JST", "ᏣᏩᏂᏏ ᎠᏟᎶᏍᏗ ᎠᏟᎢᎵᏒ"),
   ("AWST", "ᎡᎳᏗᏜ ᏭᏕᎵᎬ ᏗᏜ ᎠᏟᎶᏍᏗ ᎠᏟᎢᎵᏒ"),
   ("PST", "ᏭᏕᎵᎬ ᎠᏟᎶᏍᏗ ᎠᏟᎢᎵᏒ"),
   ("HNOG", "ᏭᏕᎵᎬ ᎢᏤᏍᏛᏱ ᎠᏟᎶᏍᏗ ᎠᎵᎢᎵᏒ"),
   ("WAST", "ᏭᏕᎵᎬ ᎬᎿᎨᏍᏛ ᎪᎩ ᎠᏟᎢᎵᏒ"),
   ("ChST", "ᏣᎼᎶ ᎠᏟᎶᏍᏗ ᎠᏟᎢᎵᏒ"),
   ("CHAST", "ᏣᏝᎻ ᎠᏟᎶᏍᏗ ᎠᏟᎢᎵᏒ"),
   ("WESZ", "ᏭᏕᎵᎬ ᏗᏜ ᏳᎳᏈ ᎪᎩ ᎠᏟᎢᎵᏒ"),
   ("MYT", "ᎹᎴᏏᎢᎠ ᎠᏟᎢᎵᏒ"),
   ("HNNOMX", "ᏧᏴᏢ ᏭᏕᎵᎬ ᎠᏂᏍᏆᏂ ᎠᏟᎶᏍᏗ ᎠᏟᎢᎵᏒ"),
   ("COT", "ᎪᎸᎻᏈᎢᎠ ᎠᏟᎶᏍᏗ ᎠᏟᎢᎵᏒ"),
   ("AEDT", "ᎡᎳᏗᏜ ᏗᎧᎸᎬ ᏗᏜ ᎪᎯ ᎢᎦ ᎠᏟᎢᎵᏒᎩ"),
   ("HNPMX", "ᎠᏂᏍᏆᏂ ᏭᏕᎵᎬ ᎠᏟᎶᏍᏗ ᎠᏟᎢᎵᏒ"),
   ("OESZ", "ᏗᎧᎸᎬ ᏗᏜ ᏳᎳᏈ ᎪᎩ ᎠᏟᎢᎵᏒ"),
   ("CLST", "ᏥᎵ ᎪᎩ ᎠᏟᎢᎵᏒ"),
   ("ADT", "ᏗᎧᎸᎬ ᎪᎯ ᎢᎦ ᎠᏟᎢᎵᏍᏒᎩ"),
   ("HKST", "ᎰᏂᎩ ᎪᏂᎩ ᎪᎩ ᎠᏟᎢᎵᏒ"),
   ("SRT", "ᏒᎵᎾᎻ ᎠᏟᎢᎵᏒ"),
   ("SGT", "ᏏᏂᎦᏉᎵ ᎠᏟᎶᏍᏗ ᎠᏟᎢᎵᏒ"),
   ("EST", "ᏗᎧᎸᎬ ᏗᏜ ᎠᏟᎶᏍᏗ ᎠᏟᎢᎵᏒ"),
   ("HAT", "ᎢᏤᎤᏂᏩᏛᏓᎦᏙᎯ ᎪᎯ ᎢᎦ ᎠᏟᎢᎵᏍᏒᎩ"),
   ("AEST", "ᎡᎳᏗᏜ ᏗᎧᎸᎬ ᏗᏜ ᎠᏟᎶᏍᏗ ᎠᏟᎢᎵᏒ"),
   ("WIT", "ᏗᎧᎸᎬ ᏗᏜ ᎢᏂᏙᏂᏍᏯ ᎠᏟᎢᎵᏒ"),
   ("IST", "ᎢᏂᏗᎢᎠ ᎠᏟᎶᏍᏗ ᎠᏟᎢᎵᏒ"),
   ("GMT", "ᎢᏤ ᎢᏳᏍᏗ ᎠᏟᎢᎵᏒ"),
   ("WART", "ᏭᏕᎵᎬ ᏗᏜ ᎠᏥᏂᏘᏂᎠ ᎠᏟᎶᏍᏗ ᎠᏟᎢᎵᏒ"),
   ("TMST", "ᏛᎵᎩᎺᏂᏍᏔᏂ ᎪᎩ ᎠᏟᎢᎵᏒ"),
   ("HEPM", "ᎤᏓᏅᏘ ᏈᏰ ᎠᎴ ᎻᏇᎶᏂ ᎪᎯ ᎢᎦ ᎠᏟᎢᎵᏒᎩ"),
   ("CLT", "ᏥᎵ ᎠᏟᎶᏍᏗ ᎠᏟᎢᎵᏒ"),
   ("AST", "ᏗᎧᎸᎬ ᎠᏟᎶᏍᏗ ᎠᏟᎢᎵᏒ"),
   ("MST", "MST"),
   ("WAT", "ᏭᏕᎵᎬ ᎬᎿᎨᏍᏛ ᎠᏟᎶᏍᏗ ᎠᏟᎢᎵᏒ"),
   ("AKDT", "ᎠᎳᏍᎦ ᎪᎯ ᎢᎦ ᎠᏟᎢᎵᏍᏒᎩ"),
   ("ARST", "ᎠᏥᏂᏘᏂᎠ ᎪᎩ ᎠᏟᎢᎵᏒ"),
   ("COST", "ᎪᎸᎻᏈᎢᎠ ᎪᎩ ᎠᏟᎢᎵᏒ"),
   ("GFT", "ᎠᏂᎦᎸ ᏈᏯᎾ ᎠᏟᎢᎵᏒ"),
   ("HAST", "ᎭᏩᏱ-ᎠᎵᏳᏏᎠᏂ ᎠᏟᎶᏍᏗ ᎠᏟᎢᎵᏒ"),
   ("ACWST", "ᎠᏰᏟ ᎡᎳᏗᏜ ᏭᏕᎵᎬ ᏗᏜ ᎠᏟᎶᏍᏗ ᎠᏟᎢᎵᏒ"),
   ("VET", "ᏪᏁᏑᏪᎳ ᎠᏟᎢᎵᏒ"),
   ("MEZ", "ᎠᏰᏟ ᏳᎳᏈ ᎠᏟᎶᏍᏗ ᎠᏟᎢᎵᏒ"),
   ("ART", "ᎠᏥᏂᏘᏂᎠ ᎠᏟᎶᏍᏗ ᎠᏟᎢᎵᏒ"),
   ("HNPM", "ᎤᏓᏅᏘ ᏈᏰ ᎠᎴ ᎻᏇᎶᏂ ᎠᏟᎶᏍᏗ ᎠᏟᎢᎵᏒ"),
   ("HKT", "ᎰᏂᎩ ᎪᏂᎩ ᎠᏟᎶᏍᏗ ᎠᏟᎢᎵᏒ"),
   ("AKST", "ᎠᎳᏍᎦ ᎠᏟᎶᏍᏗ ᎠᏟᎢᎵᏒ"),
   ("∅∅∅", "ᎠᏐᎴᏏ ᎪᎩ ᎠᏟᎢᎵᏒ"),
   ("WIB", "ᏭᏕᎵᎬ ᏗᏜ ᎢᏂᏙᏂᏍᏯ ᎠᏟᎢᎵᏒ"),
   ("ECT", "ᎡᏆᏙᎵ ᎠᏟᎢᎵᏒ"),
   ("ACWDT", "ᎠᏰᏟ ᎡᎳᏗᏜ ᏭᏕᎵᎬ ᏗᏜ ᎪᎯ ᎢᎦ ᎠᏟᎢᎵᏒᎩ"),
   ("CAT", "ᎠᏰᏟ ᎬᎿᎨᏍᏛ ᎠᏟᎢᎵᏒ"),
   ("MDT", "MDT"),
   ("HENOMX", "ᏧᏴᏢ ᏭᏕᎵᎬ ᎠᏂᏍᏆᏂ ᎪᎯ ᎢᎦ ᎠᏟᎢᎵᏍᏒᎩ"),
   ("UYT", "ᏳᎷᏇ ᎠᏟᎶᏍᏗ ᎠᏟᎢᎵᏒ")]

end chr

namespace es_US

/-- Currency symbol table of the locale (New(): `currencies`, index = currency enum). -/
def currencies : List String :=
  ["ADP", "AED", "AFA", "AFN", "ALK", "ALL", "AMD", "ANG", "AOA", "AOK", "AON", "AOR", "ARA", "ARL", "ARM", "ARP", "ARS", "ATS", "AUD", "AWG", "AZM", "AZN", "BAD", "BAM", "BAN", "BBD", "BDT", "BEC", "BEF", "BEL", "BGL", "BGM", "BGN", "BGO", "BHD", "BIF", "BMD", "BND", "BOB", "BOL", "BOP", "BOV", "BRB", "BRC", "BRE", "BRL", "BRN", "BRR", "BRZ", "BSD", "BTN", "BUK", "BWP", "BYB", "BYN", "BYR", "BZD", "CAD", "CDF", "CHE", "CHF", "CHW", "CLE", "CLF", "CLP", "CNX", "CNY", "COP", "COU", "CRC", "CSD", "CSK", "CUC", "CUP", "CVE", "CYP", "CZK", "DDM", "DEM", "DJF", "DKK", "DOP", "DZD", "ECS", "ECV", "EEK", "EGP", "ERN", "ESA", "ESB", "ESP", "ETB", "EUR", "FIM", "FJD", "FKP", "FRF", "GBP", "GEK", "GEL", "GHC", "GHS", "GIP", "GMD", "GNF", "GNS", "GQE", "GRD", "GTQ", "GWE", "GWP", "GYD", "HKD", "HNL", "HRD", "HRK", "HTG", "HUF", "IDR", "IEP", "ILP", "ILR", "ILS", "INR", "IQD", "IRR", "ISJ", "ISK", "ITL", "JMD", "JOD", "¥", "KES", "KGS", "KHR", "KMF", "KPW", "KRH", "KRO", "KRW", "KWD", "KYD", "KZT", "LAK", "LBP", "LKR", "LRD", "LSL", "LTL", "LTT", "LUC", "LUF", "LUL", "LVL", "LVR", "LYD", "MAD", "MAF", "MCF", "MDC", "MDL", "MGA", "MGF", "MKD", "MKN", "MLF", "MMK", "MNT", "MOP", "MRO", "MTL", "MTP", "MUR", "MVP", "MVR", "MWK", "MXN", "MXP", "MXV", "MYR", "MZE", "MZM", "MZN", "NAD", "NGN", "NIC", "NIO", "NLG", "NOK", "NPR", "NZD", "OMR", "PAB", "PEI", "PEN", "PES", "PGK", "PHP", "PKR", "PLN", "PLZ", "PTE", "PYG", "QAR", "RHD", "ROL", "lei", "RSD", "RUB", "RUR", "RWF", "SAR", "SBD", "SCR", "SDD", "SDG", "SDP", "SEK", "SGD", "SHP", "SIT", "SKK", "SLL", "SOS", "SRD", "SRG", "SSP", "STD", "SUR", "SVC", "SYP", "SZL", "THB", "TJR", "TJS", "TMM", "TMT", "TND", "TOP", "TPE", "TRL", "TRY", "TTD", "TWD", "TZS", "UAH", "UAK", "UGS", "UGX", "$", "USN", "USS", "UYI", "UYP", "UYU", "UZS", "VEB", "VEF", "VND", "VNN", "VUV", "WST", "XAF", "XAG", "XAU", "XBA", "XBB", "XBC", "XBD", "XCD", "XDR", "XEU", "XFO", "XFU", "XOF", "XPD", "XPF", "XPT", "XRE", "XSU", "XTS", "XUA", "XXX", "YDD", "YER", "YUD", "YUM", "YUN", "YUR", "ZAL", "ZAR", "ZMK", "ZMW", "ZRN", "ZRZ", "ZWD", "ZWL", "ZWR"]

/-- Timezone abbreviation to localized-name table of the locale (New(): `timezones`). -/
def timezones : List (String × String) :=
  [("WITA", "hora de Indonesia central"),
   ("SAST", "hora de Sudáfrica"),
   ("CHADT", "hora de verano de Chatham"),
   ("TMST", "hora de verano de Turkmenistán"),
   ("HAT", "hora de verano de Terranova"),
   ("HNEG", "hora estándar de Groenlandia oriental"),
   ("AEST", "hora estándar de Australia oriental"),
   ("HECU", "hora de verano de Cuba"),
   ("OEZ", "hora estándar de Europa oriental"),
   ("COT", "hora estándar de Colombia"),
   ("HEEG", "hora de verano de Groenlandia oriental"),
   ("MST", "hora estándar de las Montañas"),
   ("HNPM", "hora estándar de San Pedro y Miquelón"),
   ("WIB", "hora de Indonesia occidental"),
   ("NZDT", "hora de verano de Nueva Zelanda"),
   ("VET", "hora de Venezuela"),
   ("JDT", "hora de verano de Japón"),
   ("ACST", "hora estándar de Australia central"),
   ("MDT", "hora de verano de las Montañas"),
   ("ACWST", "hora estándar de Australia centroccidental"),
   ("AKST", "hora estándar de Alaska"),
   ("AKDT", "hora de verano de Alaska"),
   ("LHDT", "hora de verano de Lord Howe"),
   ("GYT", "hora de Guyana"),
   ("BOT", "hora de Bolivia"),
   ("HADT", "hora de verano de Hawái-Aleutiano"),
   ("ART", "hora estándar de Argentina"),
   ("MYT", "hora de Malasia"),
   ("WESZ", "hora de verano de Europa occidental"),
   ("EST", "hora estándar oriental"),
   ("HKST", "hora de verano de Hong Kong"),
   ("GFT", "hora de la Guayana Francesa"),
   ("LHST", "hora estándar de Lord Howe"),
   ("CDT", "hora de verano central"),
   ("IST", "hora estándar de la India"),
   ("CLT", "hora estándar de Chile"),
   ("HEOG", "hora de verano de Groenlandia occidental"),
   ("MEZ", "hora estándar de Europa central"),
   ("OESZ", "hora de verano de Europa oriental"),
   ("EDT", "hora de verano oriental"),
   ("COST", "hora de verano de Colombia"),
   ("∅∅∅", "hora de verano de las Azores"),
   ("EAT", "hora de África oriental"),
   ("NZST", "hora estándar de Nueva Zelanda"),
   ("JST", "hora estándar de Japón"),
   ("HKT", "hora estándar de Hong Kong"),
   ("BT", "hora de Bután"),
   ("HNT", "hora estándar de Terranova"),
   ("CST", "hora estándar central"),
   ("AWDT", "hora de verano de Australia occidental"),
   ("WAST", "hora de verano de África occidental"),
   ("HNCU", "hora estándar de Cuba"),
   ("ECT", "hora de Ecuador"),
   ("HNOG", "hora estándar de Groenlandia occidental"),
   ("AST", "hora estándar del Atlántico"),
   ("WEZ", "hora estándar de Europa occidental"),
   ("ACDT", "hora de verano de Australia central"),
   ("UYST", "hora de verano de Uruguay"),
   ("HNPMX", "hora estándar del Pacífico de México"),
   ("CHAST", "hora estándar de Chatham"),
   ("MESZ", "hora de verano de Europa central"),
   ("HNNOMX", "hora estándar del noroeste de México"),
   ("WAT", "hora estándar de África occidental"),
   ("ChST", "hora de Chamorro"),
   ("UYT", "hora estándar de Uruguay"),
   ("SGT", "hora de Singapur"),
   ("HAST", "hora estándar de Hawái-Aleutiano"),
   ("CAT", "hora de África central"),
   ("ADT", "hora de verano del Atlántico"),
   ("ARST", "hora de verano de Argentina"),
   ("HENOMX", "hora de verano del noroeste de México"),
   ("AEDT", "hora de verano de Australia oriental"),
   ("SRT", "hora de Surinam"),
   ("HEPMX", "hora de verano del Pacífico de México"),
   ("AWST", "hora estándar de Australia occidental"),
   ("PST", "hora estándar del Pacífico"),
   ("GMT", "hora del meridiano de Greenwich"),
   ("TMT", "hora estándar de Turkmenistán"),
   ("HEPM", "hora de verano de San Pedro y Miquelón"),
   ("ACWDT", "hora de verano de Australia centroccidental"),
   ("WART", "hora estándar de Argentina occidental"),
   ("WIT", "hora de Indonesia oriental"),
   ("PDT", "hora de verano del Pacífico"),
   ("WARST", "hora de verano de Argentina occidental"),
   ("CLST", "hora de verano de Chile")]

end es_US

namespace en_NU

/-- Currency symbol table of the locale (New(): `currencies`, index = currency enum). -/
def currencies : List String :=
  ["ADP", "AED", "AFA", "AFN", "ALK", "ALL", "AMD", "ANG", "AOA", "AOK", "AON", "AOR", "ARA", "ARL", "ARM", "ARP", "ARS", "ATS", "AUD", "AWG", "AZM", "AZN", "BAD", "BAM", "BAN", "BBD", "BDT", "BEC", "BEF", "BEL", "BGL", "BGM", "BGN", "BGO", "BHD", "BIF", "BMD", "BND", "BOB", "BOL", "BOP", "BOV", "BRB", "BRC", "BRE", "BRL", "BRN", "BRR", "BRZ", "BSD", "BTN", "BUK", "BWP", "BYB", "BYN", "BYR", "BZD", "CAD", "CDF", "CHE", "CHF", "CHW", "CLE", "CLF", "CLP", "CNX", "CNY", "COP", "COU", "CRC", "CSD", "CSK", "CUC", "CUP", "CVE", "CYP", "CZK", "DDM", "DEM", "DJF", "DKK", "DOP", "DZD", "ECS", "ECV", "EEK", "EGP", "ERN", "ESA", "ESB", "ESP", "ETB", "EUR", "FIM", "FJD", "FKP", "FRF", "GBP", "GEK", "GEL", "GHC", "GHS", "GIP", "GMD", "GNF", "GNS", "GQE", "GRD", "GTQ", "GWE", "GWP", "GYD", "HKD", "HNL", "HRD", "HRK", "HTG", "HUF", "IDR", "IEP", "ILP", "ILR", "ILS", "INR", "IQD", "IRR", "ISJ", "ISK", "ITL", "JMD", "JOD", "JPY", "KES", "KGS", "KHR", "KMF", "KPW", "KRH", "KRO", "KRW", "KWD", "KYD", "KZT", "LAK", "LBP", "LKR", "LRD", "LSL", "LTL", "LTT", "LUC", "LUF", "LUL", "LVL", "LVR", "LYD", "MAD", "MAF", "MCF", "MDC", "MDL", "MGA", "MGF", "MKD", "MKN", "MLF", "MMK", "MNT", "MOP", "MRO", "MTL", "MTP", "MUR", "MVP", "MVR", "MWK", "MXN", "MXP", "MXV", "MYR", "MZE", "MZM", "MZN", "NAD", "NGN", "NIC", "NIO", "NLG", "NOK", "NPR", "$", "OMR", "PAB", "PEI", "PEN", "PES", "PGK", "PHP", "PKR", "PLN", "PLZ", "PTE", "PYG", "QAR", "RHD", "ROL", "RON", "RSD", "RUB", "RUR", "RWF", "SAR", "SBD", "SCR", "SDD", "SDG", "SDP", "SEK", "SGD", "SHP", "SIT", "SKK", "SLL", "SOS", "SRD", "SRG", "SSP", "STD", "SUR", "SVC", "SYP", "SZL", "THB", "TJR", "TJS", "TMM", "TMT", "TND", "TOP", "TPE", "TRL", "TRY", "TTD", "TWD", "TZS", "UAH", "UAK", "UGS", "UGX", "USD", "USN", "USS", "UYI", "UYP", "UYU", "UZS", "VEB", "VEF", "VND", "VNN", "VUV", "WST", "XAF", "XAG", "XAU", "XBA", "XBB", "XBC", "XBD", "XCD", "XDR", "XEU", "XFO", "XFU", "XOF", "XPD", "XPF", "XPT", "XRE", "XSU", "XTS", "XUA", "XXX", "YDD", "YER", "YUD", "YUM", "YUN", "YUR", "ZAL", "ZAR", "ZMK", "ZMW", "ZRN", "ZRZ", "ZWD", "ZWL", "ZWR"]

/-- Timezone abbreviation to localized-name table of the locale (New(): `timezones`). -/
def timezones : List (String × String) :=
  [("WART", "Western Argentina Standard Time"),
   ("CLT", "Chile Standard Time"),
   ("AST", "Atlantic Standard Time"),
   ("ART", "Argentina Standard Time"),
   ("EDT", "Eastern Daylight Time"),
   ("ACST", "Australian Central Standard Time"),
   ("BOT", "Bolivia Time"),
   ("JST", "Japan Standard Time"),
   ("AKST", "Alaska Standard Time"),
   ("HADT", "Hawaii-Aleutian Daylight Time"),
   ("AWST", "Australian Western Standard Time"),
   ("HNPM", "St. Pierre & Miquelon Standard Time"),
   ("PDT", "Pacific Daylight Time"),
   ("OESZ", "Eastern European Summer Time"),
   ("LHST", "Lord Howe Standard Time"),
   ("CHAST", "Chatham Standard Time"),
   ("ECT", "Ecuador Time"),
   ("WARST", "Western Argentina Summer Time"),
   ("MDT", "Macau Summer Time"),
   ("HNNOMX", "Northwest Mexico Standard Time"),
   ("HNT", "Newfoundland Standard Time"),
   ("UYT", "Uruguay Standard Time"),
   ("UYST", "Uruguay Summer Time"),
   ("∅∅∅", "Brasilia Summer Time"),
   ("ACWDT", "Australian Central Western Daylight Time"),
   ("SRT", "Suriname Time"),
   ("HEOG", "West Greenland Summer Time"),
   ("OEZ", "Eastern European Standard Time"),
   ("WEZ", "Western European Standard Time"),
   ("WAT", "West Africa Standard Time"),
   ("HENOMX", "Northwest Mexico Daylight Time"),
   ("HNEG", "East Greenland Standard Time"),
   ("CAT", "Central Africa Time"),
   ("HNOG", "West Greenland Standard Time"),
   ("GYT", "Guyana Time"),
   ("HEEG", "East Greenland Summer Time"),
   ("WITA", "Central Indonesia Time"),
   ("EST", "Eastern Standard Time"),
   ("EAT", "East Africa Time"),
   ("MEZ", "Central European Standard Time"),
   ("IST", "India Standard Time"),
   ("JDT", "Japan Daylight Time"),
   ("CLST", "Chile Summer Time"),
   ("GMT", "Greenwich Mean Time"),
   ("MYT", "Malaysia Time"),
   ("COT", "Colombia Standard Time"),
   ("WIB", "Western Indonesia Time"),
   ("WIT", "Eastern Indonesia Time"),
   ("HEPM", "St. Pierre & Miquelon Daylight Time"),
   ("NZST", "New Zealand Standard Time"),
   ("MESZ", "Central European Summer Time"),
   ("WESZ", "Western European Summer Time"),
   ("TMST", "Turkmenistan Summer Time"),
   ("MST", "Macau Standard Time"),
   ("HKST", "Hong Kong Summer Time"),
   ("PST", "Pacific Standard Time"),
   ("HAST", "Hawaii-Aleutian Standard Time"),
   ("AKDT", "Alaska Daylight Time"),
   ("LHDT", "Lord Howe Daylight Time"),
   ("CHADT", "Chatham Daylight Time"),
   ("BT", "Bhutan Time"),
   ("SGT", "Singapore Standard Time"),
   ("NZDT", "New Zealand Daylight Time"),
   ("TMT", "Turkmenistan Standard Time"),
   ("HKT", "Hong Kong Standard Time"),
   ("AEST", "Australian Eastern Standard Time"),
   ("SAST", "South Africa Standard Time"),
   ("HECU", "Cuba Daylight Time"),
   ("CDT", "Central Daylight Time"),
   ("COST", "Colombia Summer Time"),
   ("GFT", "French Guiana Time"),
   ("AEDT", "Australian Eastern Daylight Time"),
   ("HNPMX", "Mexican Pacific Standard Time"),
   ("HNCU", "Cuba Standard Time"),
   ("AWDT", "Australian Western Daylight Time"),
   ("ARST", "Argentina Summer Time"),
   ("HEPMX", "Mexican Pacific Daylight Time"),
   ("CST", "Central Standard Time"),
   ("ADT", "Atlantic Daylight Time"),
   ("WAST", "West Africa Summer Time"),
   ("ACDT", "Australian Central Daylight Time"),
   ("HAT", "Newfoundland Daylight Time"),
   ("ChST", "Chamorro Standard Time"),
   ("ACWST", "Australian Central Western Standard Time"),
   ("VET", "Venezuela Time")]

end en_NU

namespace kw

/-- Currency symbol table of the locale (New(): `currencies`, index = currency enum). -/
def currencies : List String :=
  ["ADP", "AED", "AFA", "AFN", "ALK", "ALL", "AMD", "ANG", "AOA", "AOK", "AON", "AOR", "ARA", "ARL", "ARM", "ARP", "ARS", "ATS", "AUD", "AWG", "AZM", "AZN", "BAD", "BAM", "BAN", "BBD", "BDT", "BEC", "BEF", "BEL", "BGL", "BGM", "BGN", "BGO", "BHD", "BIF", "BMD", "BND", "BOB", "BOL", "BOP", "BOV", "BRB", "BRC", "BRE", "BRL", "BRN", "BRR", "BRZ", "BSD", "BTN", "BUK", "BWP", "BYB", "BYN", "BYR", "BZD", "CAD", "CDF", "CHE", "CHF", "CHW", "CLE", "CLF", "CLP", "CNX", "CNY", "COP", "COU", "CRC", "CSD", "CSK", "CUC", "CUP", "CVE", "CYP", "CZK", "DDM", "DEM", "DJF", "DKK", "DOP", "DZD", "ECS", "ECV", "EEK", "EGP", "ERN", "ESA", "ESB", "ESP", "ETB", "EUR", "FIM", "FJD", "FKP", "FRF", "GBP", "GEK", "GEL", "GHC", "GHS", "GIP", "GMD", "GNF", "GNS", "GQE", "GRD", "GTQ", "GWE", "GWP", "GYD", "HKD", "HNL", "HRD", "HRK", "HTG", "HUF", "IDR", "IEP", "ILP", "ILR", "ILS", "INR", "IQD", "IRR", "ISJ", "ISK", "ITL", "JMD", "JOD", "JPY", "KES", "KGS", "KHR", "KMF", "KPW", "KRH", "KRO", "KRW", "KWD", "KYD", "KZT", "LAK", "LBP", "LKR", "LRD", "LSL", "LTL", "LTT", "LUC", "LUF", "LUL", "LVL", "LVR", "LYD", "MAD", "MAF", "MCF", "MDC", "MDL", "MGA", "MGF", "MKD", "MKN", "MLF", "MMK", "MNT", "MOP", "MRO", "MTL", "MTP", "MUR", "MVP", "MVR", "MWK", "MXN", "MXP", "MXV", "MYR", "MZE", "MZM", "MZN", "NAD", "NGN", "NIC", "NIO", "NLG", "NOK", "NPR", "NZD", "OMR", "PAB", "PEI", "PEN", "PES", "PGK", "PHP", "PKR", "PLN", "PLZ", "PTE", "PYG", "QAR", "RHD", "ROL", "RON", "RSD", "RUB", "RUR", "RWF", "SAR", "SBD", "SCR", "SDD", "SDG", "SDP", "SEK", "SGD", "SHP", "SIT", "SKK", "SLL", "SOS", "SRD", "SRG", "SSP", "STD", "SUR", "SVC", "SYP", "SZL", "THB", "TJR", "TJS", "TMM", "TMT", "TND", "TOP", "TPE", "TRL", "TRY", "TTD", "TWD", "TZS", "UAH", "UAK", "UGS", "UGX", "USD", "USN", "USS", "UYI", "UYP", "UYU", "UZS", "VEB", "VEF", "VND", "VNN", "VUV", "WST", "XAF", "XAG", "XAU", "XBA", "XBB", "XBC", "XBD", "XCD", "XDR", "XEU", "XFO", "XFU", "XOF", "XPD", "XPF", "XPT", "XRE", "XSU", "XTS", "XUA", "XXX", "YDD", "YER", "YUD", "YUM", "YUN", "YUR", "ZAL", "ZAR", "ZMK", "ZMW", "ZRN", "ZRZ", "ZWD", "ZWL", "ZWR"]

/-- Timezone abbreviation to localized-name table of the locale (New(): `timezones`). -/
def timezones : List (String × String) :=
  [("HAT", "HAT"),
   ("AEDT", "AEDT"),
   ("CHADT", "CHADT"),
   ("CAT", "CAT"),
   ("MEZ", "MEZ"),
   ("MST", "MST"),
   ("ACST", "ACST"),
   ("BT", "BT"),
   ("JDT", "JDT"),
   ("HECU", "HECU"),
   ("CST", "CST"),
   ("OESZ", "OESZ"),
   ("EST", "EST"),
   ("HNEG", "HNEG"),
   ("HEPM", "HEPM"),
   ("HNT", "HNT"),
   ("HNPMX", "HNPMX"),
   ("EAT", "EAT"),
   ("PDT", "PDT"),
   ("MESZ", "MESZ"),
   ("HKST", "HKST"),
   ("ACDT", "ACDT"),
   ("HENOMX", "HENOMX"),
   ("TMT", "TMT"),
   ("WEZ", "WEZ"),
   ("AKST", "AKST"),
   ("AEST", "AEST"),
   ("ChST", "ChST"),
   ("LHDT", "LHDT"),
   ("WIB", "WIB"),
   ("WARST", "WARST"),
   ("HAST", "HAST"),
   ("CLT", "CLT"),
   ("CLST", "CLST"),
   ("AST", "AST"),
   ("WESZ", "WESZ"),
   ("ARST", "ARST"),
   ("HEEG", "HEEG"),
   ("BOT", "BOT"),
   ("LHST", "LHST"),
   ("AWDT", "AWDT"),
   ("GMT", "GMT"),
   ("SAST", "SAST"),
   ("WIT", "WIT"),
   ("AWST", "AWST"),
   ("SGT", "SGT"),
   ("PST", "PST"),
   ("HNNOMX", "HNNOMX"),
   ("GFT", "GFT"),
   ("HNPM", "HNPM"),
   ("HADT", "HADT"),
   ("NZST", "NZST"),
   ("MDT", "MDT"),
   ("WAST", "WAST"),
   ("∅∅∅", "∅∅∅"),
   ("SRT", "SRT"),
   ("ADT", "ADT"),
   ("TMST", "TMST"),
   ("VET", "VET"),
   ("HNOG", "HNOG"),
   ("WAT", "WAT"),
   ("CHAST", "CHAST"),
   ("OEZ", "OEZ"),
   ("EDT", "EDT"),
   ("COT", "COT"),
   ("GYT", "GYT"),
   ("JST", "JST"),
   ("WART", "WART"),
   ("HEOG", "HEOG"),
   ("HNCU", "HNCU"),
   ("CDT", "CDT"),
   ("ACWDT", "ACWDT"),
   ("WITA", "WITA"),
   ("HEPMX", "HEPMX"),
   ("ECT", "ECT"),
   ("IST", "IST"),
   ("ACWST", "ACWST"),
   ("ART", "ART"),
   ("HKT", "HKT"),
   ("COST", "COST"),
   ("MYT", "MYT"),
   ("NZDT", "NZDT"),
   ("AKDT", "AKDT"),
   ("UYT", "UYT"),
   ("UYST", "UYST")]

end kw

namespace rwk

/-- Currency symbol table of the locale (New(): `currencies`, index = currency enum). -/
def currencies : List String :=
  ["ADP", "AED", "AFA", "AFN", "ALK", "ALL", "AMD", "ANG", "AOA", "AOK", "AON", "AOR", "ARA", "ARL", "ARM", "ARP", "ARS", "ATS", "AUD", "AWG", "AZM", "AZN", "BAD", "BAM", "BAN", "BBD", "BDT", "BEC", "BEF", "BEL", "BGL", "BGM", "BGN", "BGO", "BHD", "BIF", "BMD", "BND", "BOB", "BOL", "BOP", "BOV", "BRB", "BRC", "BRE", "BRL", "BRN", "BRR", "BRZ", "BSD", "BTN", "BUK", "BWP", "BYB", "BYN", "BYR", "BZD", "CAD", "CDF", "CHE", "CHF", "CHW", "CLE", "CLF", "CLP", "CNX", "CNY", "COP", "COU", "CRC", "CSD", "CSK", "CUC", "CUP", "CVE", "CYP", "CZK", "DDM", "DEM", "DJF", "DKK", "DOP", "DZD", "ECS", "ECV", "EEK", "EGP", "ERN", "ESA", "ESB", "ESP", "ETB", "EUR", "FIM", "FJD", "FKP", "FRF", "GBP", "GEK", "GEL", "GHC", "GHS", "GIP", "GMD", "GNF", "GNS", "GQE", "GRD", "GTQ", "GWE", "GWP", "GYD", "HKD", "HNL", "HRD", "HRK", "HTG", "HUF", "IDR", "IEP", "ILP", "ILR", "ILS", "INR", "IQD", "IRR", "ISJ", "ISK", "ITL", "JMD", "JOD", "JPY", "KES", "KGS", "KHR", "KMF", "KPW", "KRH", "KRO", "KRW", "KWD", "KYD", "KZT", "LAK", "LBP", "LKR", "LRD", "LSL", "LTL", "LTT", "LUC", "LUF", "LUL", "LVL", "LVR", "LYD", "MAD", "MAF", "MCF", "MDC", "MDL", "MGA", "MGF", "MKD", "MKN", "MLF", "MMK", "MNT", "MOP", "MRO", "MTL", "MTP", "MUR", "MVP", "MVR", "MWK", "MXN", "MXP", "MXV", "MYR", "MZE", "MZM", "MZN", "NAD", "NGN", "NIC", "NIO", "NLG", "NOK", "NPR", "NZD", "OMR", "PAB", "PEI", "PEN", "PES", "PGK", "PHP", "PKR", "PLN", "PLZ", "PTE", "PYG", "QAR", "RHD", "ROL", "RON", "RSD", "RUB", "RUR", "RWF", "SAR", "SBD", "SCR", "SDD", "SDG", "SDP", "SEK", "SGD", "SHP", "SIT", "SKK", "SLL", "SOS", "SRD", "SRG", "SSP", "STD", "SUR", "SVC", "SYP", "SZL", "THB", "TJR", "TJS", "TMM", "TMT", "TND", "TOP", "TPE", "TRL", "TRY", "TTD", "TWD", "TSh", "UAH", "UAK", "UGS", "UGX", "USD", "USN", "USS", "UYI", "UYP", "UYU", "UZS", "VEB", "VEF", "VND", "VNN", "VUV", "WST", "XAF", "XAG", "XAU", "XBA", "XBB", "XBC", "XBD", "XCD", "XDR", "XEU", "XFO", "XFU", "XOF", "XPD", "XPF", "XPT", "XRE", "XSU", "XTS", "XUA", "XXX", "YDD", "YER", "YUD", "YUM", "YUN", "YUR", "ZAL", "ZAR", "ZMK", "ZMW", "ZRN", "ZRZ", "ZWD", "ZWL", "ZWR"]

/-- Timezone abbreviation to localized-name table of the locale (New(): `timezones`). -/
def timezones : List (String × String) :=
  [("AKDT", "AKDT"),
   ("ACWST", "ACWST"),
   ("VET", "VET"),
   ("WARST", "WARST"),
   ("HNOG", "HNOG"),
   ("MDT", "MDT"),
   ("HEEG", "HEEG"),
   ("PDT", "PDT"),
   ("MEZ", "MEZ"),
   ("MST", "MST"),
   ("UYT", "UYT"),
   ("WIT", "WIT"),
   ("AWST", "AWST"),
   ("HAST", "HAST"),
   ("WEZ", "WEZ"),
   ("ART", "ART"),
   ("HAT", "HAT"),
   ("WITA", "WITA"),
   ("WIB", "WIB"),
   ("ECT", "ECT"),
   ("JDT", "JDT"),
   ("COT", "COT"),
   ("HNT", "HNT"),
   ("HNPM", "HNPM"),
   ("BOT", "BOT"),
   ("MYT", "MYT"),
   ("HNNOMX", "HNNOMX"),
   ("AKST", "AKST"),
   ("AEST", "AEST"),
   ("AEDT", "AEDT"),
   ("PST", "PST"),
   ("HADT", "HADT"),
   ("HEPM", "HEPM"),
   ("SAST", "SAST"),
   ("GYT", "GYT"),
   ("AWDT", "AWDT"),
   ("IST", "IST"),
   ("EDT", "EDT"),
   ("HKT", "HKT"),
   ("GMT", "GMT"),
   ("HEPMX", "HEPMX"),
   ("CAT", "CAT"),
   ("JST", "JST"),
   ("ARST", "ARST"),
   ("HKST", "HKST"),
   ("BT", "BT"),
   ("HNPMX", "HNPMX"),
   ("SRT", "SRT"),
   ("CST", "CST"),
   ("MESZ", "MESZ"),
   ("CLT", "CLT"),
   ("HEOG", "HEOG"),
   ("AST", "AST"),
   ("ADT", "ADT"),
   ("TMST", "TMST"),
   ("ACST", "ACST"),
   ("ACDT", "ACDT"),
   ("CHADT", "CHADT"),
   ("SGT", "SGT"),
   ("NZST", "NZST"),
   ("CLST", "CLST"),
   ("OEZ", "OEZ"),
   ("WAST", "WAST"),
   ("WART", "WART"),
   ("HENOMX", "HENOMX"),
   ("LHST", "LHST"),
   ("LHDT", "LHDT"),
   ("EAT", "EAT"),
   ("ACWDT", "ACWDT"),
   ("EST", "EST"),
   ("ChST", "ChST"),
   ("UYST", "UYST"),
   ("CDT", "CDT"),
   ("COST", "COST"),
   ("HNCU", "HNCU"),
   ("CHAST", "CHAST"),
   ("∅∅∅", "∅∅∅"),
   ("NZDT", "NZDT"),
   ("OESZ", "OESZ"),
   ("WESZ", "WESZ"),
   ("TMT", "TMT"),
   ("WAT", "WAT"),
   ("HNEG", "HNEG"),
   ("GFT", "GFT"),
   ("HECU", "HECU")]

end rwk

namespace saq_KE

/-- Currency symbol table of the locale (New(): `currencies`, index = currency enum). -/
def currencies : List String :=
  ["ADP", "AED", "AFA", "AFN", "ALK", "ALL", "AMD", "ANG", "AOA", "AOK", "AON", "AOR", "ARA", "ARL", "ARM", "ARP", "ARS", "ATS", "AUD", "AWG", "AZM", "AZN", "BAD", "BAM", "BAN", "BBD", "BDT", "BEC", "BEF", "BEL", "BGL", "BGM", "BGN", "BGO", "BHD", "BIF", "BMD", "BND", "BOB", "BOL", "BOP", "BOV", "BRB", "BRC", "BRE", "BRL", "BRN", "BRR", "BRZ", "BSD", "BTN", "BUK", "BWP", "BYB", "BYN", "BYR", "BZD", "CAD", "CDF", "CHE", "CHF", "CHW", "CLE", "CLF", "CLP", "CNX", "CNY", "COP", "COU", "CRC", "CSD", "CSK", "CUC", "CUP", "CVE", "CYP", "CZK", "DDM", "DEM", "DJF", "DKK", "DOP", "DZD", "ECS", "ECV", "EEK", "EGP", "ERN", "ESA", "ESB", "ESP", "ETB", "EUR", "FIM", "FJD", "FKP", "FRF", "GBP", "GEK", "GEL", "GHC", "GHS", "GIP", "GMD", "GNF", "GNS", "GQE", "GRD", "GTQ", "GWE", "GWP", "GYD", "HKD", "HNL", "HRD", "HRK", "HTG", "HUF", "IDR", "IEP", "ILP", "ILR", "ILS", "INR", "IQD", "IRR", "ISJ", "ISK", "ITL", "JMD", "JOD", "JPY", "KES", "KGS", "KHR", "KMF", "KPW", "KRH", "KRO", "KRW", "KWD", "KYD", "KZT", "LAK", "LBP", "LKR", "LRD", "LSL", "LTL", "LTT", "LUC", "LUF", "LUL", "LVL", "LVR", "LYD", "MAD", "MAF", "MCF", "MDC", "MDL", "MGA", "MGF", "MKD", "MKN", "MLF", "MMK", "MNT", "MOP", "MRO", "MTL", "MTP", "MUR", "MVP", "MVR", "MWK", "MXN", "MXP", "MXV", "MYR", "MZE", "MZM", "MZN", "NAD", "NGN", "NIC", "NIO", "NLG", "NOK", "NPR", "NZD", "OMR", "PAB", "PEI", "PEN", "PES", "PGK", "PHP", "PKR", "PLN", "PLZ", "PTE", "PYG", "QAR", "RHD", "ROL", "RON", "RSD", "RUB", "RUR", "RWF", "SAR", "SBD", "SCR", "SDD", "SDG", "SDP", "SEK", "SGD", "SHP", "SIT", "SKK", "SLL", "SOS", "SRD", "SRG", "SSP", "STD", "SUR", "SVC", "SYP", "SZL", "THB", "TJR", "TJS", "TMM", "TMT", "TND", "TOP", "TPE", "TRL", "TRY", "TTD", "TWD", "TZS", "UAH", "UAK", "UGS", "UGX", "USD", "USN", "USS", "UYI", "UYP", "UYU", "UZS", "VEB", "VEF", "VND", "VNN", "VUV", "WST", "XAF", "XAG", "XAU", "XBA", "XBB", "XBC", "XBD", "XCD", "XDR", "XEU", "XFO", "XFU", "XOF", "XPD", "XPF", "XPT", "XRE", "XSU", "XTS", "XUA", "XXX", "YDD", "YER", "YUD", "YUM", "YUN", "YUR", "ZAL", "ZAR", "ZMK", "ZMW", "ZRN", "ZRZ", "ZWD", "ZWL", "ZWR"]

/-- Timezone abbreviation to localized-name table of the locale (New(): `timezones`). -/
def timezones : List (String × String) :=
  [("AEST", "AEST"),
   ("HNPM", "HNPM"),
   ("AWST", "AWST"),
   ("SGT", "SGT"),
   ("ECT", "ECT"),
   ("ACWST", "ACWST"),
   ("WART", "WART"),
   ("ACDT", "ACDT"),
   ("WEZ", "WEZ"),
   ("JST", "JST"),
   ("HECU", "HECU"),
   ("NZST", "NZST"),
   ("SAST", "SAST"),
   ("AKDT", "AKDT"),
   ("HAST", "HAST"),
   ("VET", "VET"),
   ("AST", "AST"),
   ("ART", "ART"),
   ("PST", "PST"),
   ("HEOG", "HEOG"),
   ("ARST", "ARST"),
   ("MDT", "MDT"),
   ("ACST", "ACST"),
   ("AKST", "AKST"),
   ("ChST", "ChST"),
   ("UYST", "UYST"),
   ("GYT", "GYT"),
   ("WIB", "WIB"),
   ("MST", "MST"),
   ("OEZ", "OEZ"),
   ("MESZ", "MESZ"),
   ("GFT", "GFT"),
   ("HNCU", "HNCU"),
   ("IST", "IST"),
   ("ADT", "ADT"),
   ("HNT", "HNT"),
   ("WESZ", "WESZ"),
   ("WARST", "WARST"),
   ("EDT", "EDT"),
   ("BT", "BT"),
   ("HNEG", "HNEG"),
   ("∅∅∅", "∅∅∅"),
   ("UYT", "UYT"),
   ("LHST", "LHST"),
   ("HEPMX", "HEPMX"),
   ("AWDT", "AWDT"),
   ("HNNOMX", "HNNOMX"),
   ("MYT", "MYT"),
   ("TMST", "TMST"),
   ("JDT", "JDT"),
   ("CST", "CST"),
   ("HNOG", "HNOG"),
   ("HEPM", "HEPM"),
   ("EST", "EST"),
   ("HENOMX", "HENOMX"),
   ("PDT", "PDT"),
   ("CAT", "CAT"),
   ("MEZ", "MEZ"),
   ("OESZ", "OESZ"),
   ("WAST", "WAST"),
   ("HKST", "HKST"),
   ("HAT", "HAT"),
   ("HEEG", "HEEG"),
   ("ACWDT", "ACWDT"),
   ("GMT", "GMT"),
   ("WAT", "WAT"),
   ("HNPMX", "HNPMX"),
   ("BOT", "BOT"),
   ("HADT", "HADT"),
   ("LHDT", "LHDT"),
   ("COT", "COT"),
   ("SRT", "SRT"),
   ("EAT", "EAT"),
   ("WIT", "WIT"),
   ("NZDT", "NZDT"),
   ("CLT", "CLT"),
   ("CLST", "CLST"),
   ("HKT", "HKT"),
   ("AEDT", "AEDT"),
   ("TMT", "TMT"),
   ("COST", "COST"),
   ("CDT", "CDT"),
   ("CHAST", "CHAST"),
   ("CHADT", "CHADT"),
   ("WITA", "WITA")]

end saq_KE

/-- Decimal digits of a natural number, most significant first (model of
the strconv decimal conversion loop); the fuel argument only bounds the
recursion depth and is never exhausted for the initial fuel `n + 1`. -/
def natDigitsCore : Nat → Nat → List Char → List Char
  | 0, _, acc => acc
  | fuel + 1, n, acc =>
    let d := Char.ofNat (48 + n % 10)
    if n < 10 then d :: acc else natDigitsCore fuel (n / 10) (d :: acc)

/-- Model of `strconv.Itoa` / `strconv.AppendInt` on a nonnegative value. -/
def natDigits (n : Nat) : List Char := natDigitsCore (n + 1) n []

/-- Model of `strconv.Itoa` on an `int` value (sign character first). -/
def itoaInt (y : Int) : List Char :=
  if y < 0 then '-' :: natDigits (-y).toNat else natDigits y.toNat

/-- Model of the Go slice expression `s[k:]`: panics (`none`) when `k`
exceeds the length. -/
def goSliceFrom (l : List Char) (k : Nat) : Option (List Char) :=
  if k ≤ l.length then some (l.drop k) else none

/-- Model of the idiom `if x < 10 { append '0' }; AppendInt(b, x, 10)`
used for minutes, seconds and padded hours. -/
def pad0 (n : Nat) : List Char :=
  (if n < 10 then ['0'] else []) ++ natDigits n

/-- Model of the minimum-fraction padding block shared by every
FmtCurrency/FmtAccounting: `if int(v) < 2 { if v == 0 { append decimal };
append 2-v zeros }`. -/
def pad2 (dec : List Char) (v : Nat) : List Char :=
  if v < 2 then (if v = 0 then dec else []) ++ List.replicate (2 - v) '0' else []

/-- Model of the digit loop shared by FmtNumber/FmtCurrency/FmtAccounting
of the locales that write `b = append(b, x.group[0])` at a group boundary.
The input is the byte sequence of `s` reversed (the Go loop walks `s` from
the end); the output is in the order the bytes are appended to `b`.
`none` models the panic of `decimal[0]` or `group[0]` on an empty string. -/
def fmtLoopG1 (dec grp : List Char) : List Char → Nat → Bool → Option (List Char)
  | [], _, _ => some []
  | c :: rest, count, inWhole =>
    if c = '.' then
      dec.head?.bind fun d =>
        (fmtLoopG1 dec grp rest count true).map fun r => d :: r
    else if inWhole then
      if count = 3 then
        grp.head?.bind fun g =>
          (fmtLoopG1 dec grp rest 1 inWhole).map fun r => g :: c :: r
      else
        (fmtLoopG1 dec grp rest (count + 1) inWhole).map fun r => c :: r
    else
      (fmtLoopG1 dec grp rest count inWhole).map fun r => c :: r

/-- Model of the same digit loop in the variant (ksf_CM) that appends all
bytes of the group symbol in reverse:
`for j := len(group)-1; j >= 0; j-- { b = append(b, group[j]) }`. -/
def fmtLoopGAll (dec grp : List Char) : List Char → Nat → Bool → Option (List Char)
  | [], _, _ => some []
  | c :: rest, count, inWhole =>
    if c = '.' then
      dec.head?.bind fun d =>
        (fmtLoopGAll dec grp rest count true).map fun r => d :: r
    else if inWhole then
      if count = 3 then
        (fmtLoopGAll dec grp rest 1 inWhole).map fun r => grp.reverse ++ c :: r
      else
        (fmtLoopGAll dec grp rest (count + 1) inWhole).map fun r => c :: r
    else
      (fmtLoopGAll dec grp rest count inWhole).map fun r => c :: r

/-- Model of the FmtPercent digit loop (no grouping: only the decimal
point is replaced by `decimal[0]`). -/
def pctLoop (dec : List Char) : List Char → Option (List Char)
  | [] => some []
  | c :: rest =>
    if c = '.' then
      dec.head?.bind fun d => (pctLoop dec rest).map fun r => d :: r
    else
      (pctLoop dec rest).map fun r => c :: r

/-- Shared body of the grouped FmtNumber implementations: digit loop over
the reversed numeral, optional `minus[0]`, final reversal. -/
def fmtNumberShape (loop : List Char → Nat → Bool → Option (List Char))
    (minus : List Char) (neg : Bool) (s : List Char) (v : Nat) :
    Option (List Char) :=
  (loop s.reverse 0 (v == 0)).bind fun body =>
    (if neg then minus.head?.map fun m => body ++ [m] else some body).map
      fun signed => signed.reverse

/-- Shared body of the FmtPercent implementations that append a
percent-suffix then the percent glyph (bs, es_US). -/
def fmtPercentSufShape (dec minus pctSuf pct : List Char) (neg : Bool)
    (s : List Char) (_v : Nat) : Option (List Char) :=
  (pctLoop dec s.reverse).bind fun body =>
    (if neg then minus.head?.map fun m => body ++ [m] else some body).map
      fun signed => signed.reverse ++ pctSuf ++ pct

/-- Shared body of the FmtPercent implementations that append only the
percent glyph (ca_IT, chr, en_NU). -/
def fmtPercentShape (dec minus pct : List Char) (neg : Bool)
    (s : List Char) (_v : Nat) : Option (List Char) :=
  (pctLoop dec s.reverse).bind fun body =>
    (if neg then minus.head?.map fun m => body ++ [m] else some body).map
      fun signed => signed.reverse ++ pct

/-- Shared body of the FmtCurrency implementations that append the
positive suffix then the symbol after the number (bs, ksf_CM, ca_IT,
es_US). -/
def fmtCurrencySufShape (loop : List Char → Nat → Bool → Option (List Char))
    (dec minus posSuf : List Char) (curs : List String) (neg : Bool)
    (s : List Char) (v c : Nat) : Option (List Char) :=
  (curs.get? c).bind fun symbol =>
    (loop s.reverse 0 (v == 0)).bind fun body =>
      (if neg then minus.head?.map fun m => body ++ [m] else some body).map
        fun signed => signed.reverse ++ pad2 dec v ++ posSuf ++ symbol.data

/-- Shared body of the matching FmtAccounting implementations (bs, ksf_CM,
es_US with `negMark = minus`; ca_IT with `negMark = currencyNegativePrefix`,
whose first byte is appended before the reversal). -/
def fmtAccountingSufShape (loop : List Char → Nat → Bool → Option (List Char))
    (dec negMark posSuf negSuf : List Char) (curs : List String) (neg : Bool)
    (s : List Char) (v c : Nat) : Option (List Char) :=
  (curs.get? c).bind fun symbol =>
    (loop s.reverse 0 (v == 0)).bind fun body =>
      (if neg then negMark.head?.map fun m => body ++ [m] else some body).map
        fun signed =>
          if neg then signed.reverse ++ pad2 dec v ++ negSuf ++ symbol.data
          else signed.reverse ++ pad2 dec v ++ posSuf ++ symbol.data

/-- Shared body of the FmtCurrency implementations that place the symbol
before the number (chr, en_NU, kw, saq_KE): the symbol bytes are appended
in reverse before the optional `minus[0]`, so the final reversal restores
them in front. -/
def fmtCurrencyPreShape (loop : List Char → Nat → Bool → Option (List Char))
    (dec minus : List Char) (curs : List String) (neg : Bool)
    (s : List Char) (v c : Nat) : Option (List Char) :=
  (curs.get? c).bind fun symbol =>
    (loop s.reverse 0 (v == 0)).bind fun body =>
      (if neg then minus.head?.map fun m => body ++ symbol.data.reverse ++ [m]
       else some (body ++ symbol.data.reverse)).map
        fun signed => signed.reverse ++ pad2 dec v

/-- Shared body of the matching FmtAccounting implementations (chr, en_NU,
saq_KE): a negative amount gets `currencyNegativePrefix[0]` before the
symbol and the negative suffix at the very end. -/
def fmtAccountingPreShape (loop : List Char → Nat → Bool → Option (List Char))
    (dec negMark negSuf : List Char) (curs : List String) (neg : Bool)
    (s : List Char) (v c : Nat) : Option (List Char) :=
  (curs.get? c).bind fun symbol =>
    (loop s.reverse 0 (v == 0)).bind fun body =>
      (if neg then negMark.head?.map fun m => body ++ symbol.data.reverse ++ [m]
       else some (body ++ symbol.data.reverse)).map
        fun signed =>
          if neg then signed.reverse ++ pad2 dec v ++ negSuf
          else signed.reverse ++ pad2 dec v

/-- Shared body of rwk's FmtCurrency: symbol appended directly after the
padding, no affix strings. -/
def fmtCurrencyBareShape (loop : List Char → Nat → Bool → Option (List Char))
    (dec minus : List Char) (curs : List String) (neg : Bool)
    (s : List Char) (v c : Nat) : Option (List Char) :=
  (curs.get? c).bind fun symbol =>
    (loop s.reverse 0 (v == 0)).bind fun body =>
      (if neg then minus.head?.map fun m => body ++ [m] else some body).map
        fun signed => signed.reverse ++ pad2 dec v ++ symbol.data

/-- Shared body of rwk's FmtAccounting: the negative and positive branches
of the trailing append are identical in the source. -/
def fmtAccountingBareShape (loop : List Char → Nat → Bool → Option (List Char))
    (dec minus : List Char) (curs : List String) (neg : Bool)
    (s : List Char) (v c : Nat) : Option (List Char) :=
  (curs.get? c).bind fun symbol =>
    (loop s.reverse 0 (v == 0)).bind fun body =>
      (if neg then minus.head?.map fun m => body ++ [m] else some body).map
        fun signed =>
          if neg then signed.reverse ++ pad2 dec v ++ symbol.data
          else signed.reverse ++ pad2 dec v ++ symbol.data

/-- Projection of a Go `time.Time` to the fields the formatters read. -/
structure GoTime where
  year : Int
  month : Nat
  day : Nat
  hour : Nat
  minute : Nat
  second : Nat
  zone : String

/-- Model of the shared timezone-name block of FmtTimeFull:
`if btz, ok := x.timezones[tz]; ok { append btz } else { append tz }`. -/
def tzName (tzs : List (String × String)) (zone : String) : List Char :=
  match List.lookup zone tzs with
  | some full => full.data
  | none => zone.data

/-- Shared body of the FmtTimeFull implementations with zero-padded
24-hour clock (bs, ksf_CM, en_NU, kw, rwk, saq_KE). -/
def fmtTimeFullPad24 (sep : List Char) (tzs : List (String × String))
    (t : GoTime) : List Char :=
  pad0 t.hour ++ sep ++ pad0 t.minute ++ sep ++ pad0 t.second ++ [' '] ++
    tzName tzs t.zone

/-- Shared body of ca_IT's FmtTimeFull: unpadded 24-hour clock. -/
def fmtTimeFullBareHour (sep : List Char) (tzs : List (String × String))
    (t : GoTime) : List Char :=
  natDigits t.hour ++ sep ++ pad0 t.minute ++ sep ++ pad0 t.second ++ [' '] ++
    tzName tzs t.zone

/-- The 12-hour display hour: `h := t.Hour(); if h > 12 { h -= 12 }`. -/
def hour12 (h : Nat) : Nat := if h > 12 then h - 12 else h

/-- The period name block: first period name when the hour-of-day is below
12, second otherwise. -/
def periodOf (periods : List String) (hour : Nat) : List Char :=
  if hour < 12 then (periods.getD 0 "").data else (periods.getD 1 "").data

/-- Shared body of the 12-hour FmtTimeShort implementations (chr, es_US). -/
def fmtTimeShort12h (sep : List Char) (periods : List String) (t : GoTime) :
    List Char :=
  natDigits (hour12 t.hour) ++ sep ++ pad0 t.minute ++ [' '] ++
    periodOf periods t.hour

/-- Shared body of the 12-hour FmtTimeMedium implementations (chr, es_US). -/
def fmtTimeMedium12h (sep : List Char) (periods : List String) (t : GoTime) :
    List Char :=
  natDigits (hour12 t.hour) ++ sep ++ pad0 t.minute ++ sep ++ pad0 t.second ++
    [' '] ++ periodOf periods t.hour

/-- Shared body of the 12-hour FmtTimeLong implementations (chr, es_US):
the raw zone abbreviation follows the period name. -/
def fmtTimeLong12h (sep : List Char) (periods : List String) (t : GoTime) :
    List Char :=
  natDigits (hour12 t.hour) ++ sep ++ pad0 t.minute ++ sep ++ pad0 t.second ++
    [' '] ++ periodOf periods t.hour ++ [' '] ++ t.zone.data

/-- Shared body of the 12-hour FmtTimeFull implementations (chr, es_US):
the resolved timezone name follows the period name. -/
def fmtTimeFull12h (sep : List Char) (periods : List String)
    (tzs : List (String × String)) (t : GoTime) : List Char :=
  natDigits (hour12 t.hour) ++ sep ++ pad0 t.minute ++ sep ++ pad0 t.second ++
    [' '] ++ periodOf periods t.hour ++ [' '] ++ tzName tzs t.zone

namespace bs

/-- Symbols of bs (src/unnamed/part_000 lines 52-62; the suffix strings
are the two-byte U+00A0 no-break space). -/
def decimal : String := ","

def group : String := "."

def minus : String := "-"

def percent : String := "%"

def percentSuffix : String := " "

def timeSeparator : String := ":"

def currencyPositiveSuffix : String := " "

def currencyNegativeSuffix : String := " "

/-- Embedding of `bs.FmtNumber` (part_000 lines 224-262). -/
def FmtNumber : Bool → List Char → Nat → Option (List Char) :=
  fmtNumberShape (fmtLoopG1 decimal.data group.data) minus.data

/-- Embedding of `bs.FmtPercent` (part_000 lines 266-295): no thousands
grouping; percent-suffix and glyph appended at the end. -/
def FmtPercent : Bool → List Char → Nat → Option (List Char) :=
  fmtPercentSufShape decimal.data minus.data percentSuffix.data percent.data

/-- Embedding of `bs.FmtCurrency` (part_000 lines 298-352). -/
def FmtCurrency : Bool → List Char → Nat → Nat → Option (List Char) :=
  fmtCurrencySufShape (fmtLoopG1 decimal.data group.data) decimal.data
    minus.data currencyPositiveSuffix.data currencies

/-- Embedding of `bs.FmtAccounting` (part_000 lines 356-417). -/
def FmtAccounting : Bool → List Char → Nat → Nat → Option (List Char) :=
  fmtAccountingSufShape (fmtLoopG1 decimal.data group.data) decimal.data
    minus.data currencyPositiveSuffix.data currencyNegativeSuffix.data
    currencies

/-- Embedding of `bs.FmtDateShort` (part_000 lines 420-438): day and month
unpadded, year compressed by dropping its leading decimal digits. -/
def FmtDateShort (t : GoTime) : Option (List Char) :=
  (if t.year > 9 then goSliceFrom (itoaInt t.year) 2
   else goSliceFrom (itoaInt t.year) 1).map fun ytail =>
    natDigits t.day ++ ['.'] ++ natDigits t.month ++ ['.'] ++ ytail ++ ['.']

/-- Embedding of `bs.FmtTimeFull` (part_000 lines 587-621). -/
def FmtTimeFull : GoTime → List Char :=
  fmtTimeFullPad24 timeSeparator.data timezones

end bs

namespace ksf_CM

/-- Symbols of ksf_CM (src/unnamed/part_001 lines 51-56): `minus` and
`percent` are never set in New() and keep Go's zero value, the empty
string; the group symbol is the two-byte U+00A0 no-break space. -/
def decimal : String := ","

def group : String := " "

def minus : String := ""

def timeSeparator : String := ":"

def currencyPositiveSuffix : String := " "

def currencyNegativeSuffix : String := " "

/-- Embedding of `ksf_CM.FmtNumber` (part_001 lines 177-217).  On negative
input the code evaluates `ksf.minus[0]` with `minus == ""`, a Go panic,
modelled by `none`. -/
def FmtNumber : Bool → List Char → Nat → Option (List Char) :=
  fmtNumberShape (fmtLoopGAll decimal.data group.data) minus.data

/-- Embedding of `ksf_CM.FmtPercent` (part_001 lines 221-223): the bare
FormatFloat numeral is returned unchanged. -/
def FmtPercent (_neg : Bool) (s : List Char) (_v : Nat) : Option (List Char) :=
  some s

/-- Embedding of `ksf_CM.FmtCurrency` (part_001 lines 226-282). -/
def FmtCurrency : Bool → List Char → Nat → Nat → Option (List Char) :=
  fmtCurrencySufShape (fmtLoopGAll decimal.data group.data) decimal.data
    minus.data currencyPositiveSuffix.data currencies

/-- Embedding of `ksf_CM.FmtAccounting` (part_001 lines 286-349). -/
def FmtAccounting : Bool → List Char → Nat → Nat → Option (List Char) :=
  fmtAccountingSufShape (fmtLoopGAll decimal.data group.data) decimal.data
    minus.data currencyPositiveSuffix.data currencyNegativeSuffix.data
    currencies

/-- Embedding of `ksf_CM.FmtTimeFull` (part_001 lines 511-545). -/
def FmtTimeFull : GoTime → List Char :=
  fmtTimeFullPad24 timeSeparator.data timezones

end ksf_CM

namespace ca_IT

/-- Symbols of ca_IT (src/unnamed/part_001 lines 598-608); the negative
suffix is U+00A0 followed by a closing parenthesis. -/
def decimal : String := ","

def group : String := "."

def minus : String := "-"

def percent : String := "%"

def timeSeparator : String := ":"

def currencyPositiveSuffix : String := " "

def currencyNegativeMark : String := "("

def currencyNegativeSuffix : String := " )"

/-- Embedding of `ca_IT.FmtNumber` (part_001 lines 751-789). -/
def FmtNumber : Bool → List Char → Nat → Option (List Char) :=
  fmtNumberShape (fmtLoopG1 decimal.data group.data) minus.data

/-- Embedding of `ca_IT.FmtPercent` (part_001 lines 793-820): no grouping,
glyph appended directly. -/
def FmtPercent : Bool → List Char → Nat → Option (List Char) :=
  fmtPercentShape decimal.data minus.data percent.data

/-- Embedding of `ca_IT.FmtCurrency` (part_001 lines 823-877). -/
def FmtCurrency : Bool → List Char → Nat → Nat → Option (List Char) :=
  fmtCurrencySufShape (fmtLoopG1 decimal.data group.data) decimal.data
    minus.data currencyPositiveSuffix.data currencies

/-- Embedding of `ca_IT.FmtAccounting` (part_001 lines 881-942): a
negative amount gets `currencyNegativePrefix[0]` (the opening
parenthesis) before the reversal and the negative suffix at the end. -/
def FmtAccounting : Bool → List Char → Nat → Nat → Option (List Char) :=
  fmtAccountingSufShape (fmtLoopG1 decimal.data group.data) decimal.data
    currencyNegativeMark.data currencyPositiveSuffix.data
    currencyNegativeSuffix.data currencies

/-- Embedding of `ca_IT.FmtTimeFull` (part_001 lines 1094-1124): the hour
is not zero-padded. -/
def FmtTimeFull : GoTime → List Char :=
  fmtTimeFullBareHour timeSeparator.data timezones

end ca_IT

namespace chr

/-- Symbols of chr (src/unnamed/part_002 lines 51-60). -/
def decimal : String := "."

def group : String := ","

def minus : String := "-"

def percent : String := "%"

def timeSeparator : String := ":"

def currencyNegativeMark : String := "("

def currencyNegativeSuffix : String := ")"

/-- Period names of chr (part_002 line 68). -/
def periodsAbbreviated : List String := ["ᏌᎾᎴ", "ᏒᎯᏱᎢᏗᏢ"]

/-- Embedding of `chr.FmtNumber` (part_002 lines 191-229). -/
def FmtNumber : Bool → List Char → Nat → Option (List Char) :=
  fmtNumberShape (fmtLoopG1 decimal.data group.data) minus.data

/-- Embedding of `chr.FmtPercent` (part_002 lines 233-260): no grouping,
glyph appended directly. -/
def FmtPercent : Bool → List Char → Nat → Option (List Char) :=
  fmtPercentShape decimal.data minus.data percent.data

/-- Embedding of `chr.FmtCurrency` (part_002 lines 263-317): the symbol
precedes the number. -/
def FmtCurrency : Bool → List Char → Nat → Nat → Option (List Char) :=
  fmtCurrencyPreShape (fmtLoopG1 decimal.data group.data) decimal.data
    minus.data currencies

/-- Embedding of `chr.FmtAccounting` (part_002 lines 321-387). -/
def FmtAccounting : Bool → List Char → Nat → Nat → Option (List Char) :=
  fmtAccountingPreShape (fmtLoopG1 decimal.data group.data) decimal.data
    currencyNegativeMark.data currencyNegativeSuffix.data currencies

/-- Embedding of `chr.FmtDateShort` (part_002 lines 390-406): month/day
order, year compressed by dropping its leading decimal digits. -/
def FmtDateShort (t : GoTime) : Option (List Char) :=
  (if t.year > 9 then goSliceFrom (itoaInt t.year) 2
   else goSliceFrom (itoaInt t.year) 1).map fun ytail =>
    natDigits t.month ++ ['/'] ++ natDigits t.day ++ ['/'] ++ ytail

/-- Embedding of `chr.FmtTimeShort` (part_002 lines 468-495). -/
def FmtTimeShort : GoTime → List Char :=
  fmtTimeShort12h timeSeparator.data periodsAbbreviated

/-- Embedding of `chr.FmtTimeMedium` (part_002 lines 498-532). -/
def FmtTimeMedium : GoTime → List Char :=
  fmtTimeMedium12h timeSeparator.data periodsAbbreviated

/-- Embedding of `chr.FmtTimeLong` (part_002 lines 535-574). -/
def FmtTimeLong : GoTime → List Char :=
  fmtTimeLong12h timeSeparator.data periodsAbbreviated

/-- Embedding of `chr.FmtTimeFull` (part_002 lines 577-621). -/
def FmtTimeFull : GoTime → List Char :=
  fmtTimeFull12h timeSeparator.data periodsAbbreviated timezones

end chr

namespace es_US

/-- Symbols of es_US (src/unnamed/part_003 lines 52-62). -/
def decimal : String := ","

def group : String := "."

def minus : String := "-"

def percent : String := "%"

def percentSuffix : String := " "

def timeSeparator : String := ":"

def currencyPositiveSuffix : String := " "

def currencyNegativeSuffix : String := " "

/-- Period names of es_US (part_003 line 70). -/
def periodsAbbreviated : List String := ["a. m.", "p. m."]

/-- Embedding of `es_US.FmtNumber` (part_003 lines 193-231). -/
def FmtNumber : Bool → List Char → Nat → Option (List Char) :=
  fmtNumberShape (fmtLoopG1 decimal.data group.data) minus.data

/-- Embedding of `es_US.FmtPercent` (part_003 lines 235-263). -/
def FmtPercent : Bool → List Char → Nat → Option (List Char) :=
  fmtPercentSufShape decimal.data minus.data percentSuffix.data percent.data

/-- Embedding of `es_US.FmtCurrency` (part_003 lines 266-320). -/
def FmtCurrency : Bool → List Char → Nat → Nat → Option (List Char) :=
  fmtCurrencySufShape (fmtLoopG1 decimal.data group.data) decimal.data
    minus.data currencyPositiveSuffix.data currencies

/-- Embedding of `es_US.FmtAccounting` (part_003 lines 324-385). -/
def FmtAccounting : Bool → List Char → Nat → Nat → Option (List Char) :=
  fmtAccountingSufShape (fmtLoopG1 decimal.data group.data) decimal.data
    minus.data currencyPositiveSuffix.data currencyNegativeSuffix.data
    currencies

/-- Embedding of `es_US.FmtTimeFull` (part_003 lines 577-625). -/
def FmtTimeFull : GoTime → List Char :=
  fmtTimeFull12h timeSeparator.data periodsAbbreviated timezones

end es_US

namespace en_NU

/-- Symbols of en_NU (en_NU.go lines 51-60). -/
def decimal : String := "."

def group : String := ","

def minus : String := "-"

def percent : String := "%"

def timeSeparator : String := ":"

def currencyNegativeMark : String := "("

def currencyNegativeSuffix : String := ")"

/-- Embedding of `en_NU.FmtNumber` (en_NU.go lines 203-241). -/
def FmtNumber : Bool → List Char → Nat → Option (List Char) :=
  fmtNumberShape (fmtLoopG1 decimal.data group.data) minus.data

/-- Embedding of `en_NU.FmtPercent` (en_NU.go lines 245-274). -/
def FmtPercent : Bool → List Char → Nat → Option (List Char) :=
  fmtPercentShape decimal.data minus.data percent.data

/-- Embedding of `en_NU.FmtCurrency` (en_NU.go lines 277-331): the symbol
precedes the number. -/
def FmtCurrency : Bool → List Char → Nat → Nat → Option (List Char) :=
  fmtCurrencyPreShape (fmtLoopG1 decimal.data group.data) decimal.data
    minus.data currencies

/-- Embedding of `en_NU.FmtAccounting` (en_NU.go lines 335-401). -/
def FmtAccounting : Bool → List Char → Nat → Nat → Option (List Char) :=
  fmtAccountingPreShape (fmtLoopG1 decimal.data group.data) decimal.data
    currencyNegativeMark.data currencyNegativeSuffix.data currencies

/-- Embedding of `en_NU.FmtTimeFull` (en_NU.go lines 573-607). -/
def FmtTimeFull : GoTime → List Char :=
  fmtTimeFullPad24 timeSeparator.data timezones

end en_NU

namespace kw

/-- Symbols of kw (kw.go lines 44-60): `decimal`, `group`, `minus` and
`percent` are never set in New() and keep Go's zero value, the empty
string. -/
def decimal : String := ""

def group : String := ""

def minus : String := ""

def timeSeparator : String := ":"

/-- Embedding of `kw.FmtNumber` (kw.go lines 179-182): the bare
FormatFloat numeral is returned unchanged. -/
def FmtNumber (_neg : Bool) (s : List Char) (_v : Nat) : Option (List Char) :=
  some s

/-- Embedding of `kw.FmtPercent` (kw.go lines 186-188). -/
def FmtPercent (_neg : Bool) (s : List Char) (_v : Nat) : Option (List Char) :=
  some s

/-- Embedding of `kw.FmtCurrency` (kw.go lines 191-245): the digit loop
indexes `decimal[0]` / `group[0]` on empty strings (a panic) as soon as a
decimal point or a group boundary is reached, and `minus[0]` on negative
input. -/
def FmtCurrency : Bool → List Char → Nat → Nat → Option (List Char) :=
  fmtCurrencyPreShape (fmtLoopG1 decimal.data group.data) decimal.data
    minus.data currencies

/-- Embedding of `kw.FmtAccounting` (kw.go lines 249-311): like its
FmtCurrency, but the sign mark `minus[0]` is appended after the reversed
symbol only in the negative branch, with no trailing negative suffix. -/
def FmtAccounting (neg : Bool) (s : List Char) (v c : Nat) :
    Option (List Char) :=
  (currencies.get? c).bind fun symbol =>
    (fmtLoopG1 decimal.data group.data s.reverse 0 (v == 0)).bind fun body =>
      (if neg then
        minus.data.head?.map fun m => body ++ symbol.data.reverse ++ [m]
       else some (body ++ symbol.data.reverse)).map
        fun signed => signed.reverse ++ pad2 decimal.data v

/-- Embedding of `kw.FmtTimeFull` (kw.go lines 483-517). -/
def FmtTimeFull : GoTime → List Char :=
  fmtTimeFullPad24 timeSeparator.data timezones

end kw

namespace rwk

/-- Symbols of rwk (rwk.go lines 44-49): `decimal`, `group`, `minus` and
`percent` are never set in New() and keep Go's zero value, the empty
string. -/
def decimal : String := ""

def group : String := ""

def minus : String := ""

def timeSeparator : String := ":"

/-- Embedding of `rwk.FmtNumber` (rwk.go lines 179-182). -/
def FmtNumber (_neg : Bool) (s : List Char) (_v : Nat) : Option (List Char) :=
  some s

/-- Embedding of `rwk.FmtPercent` (rwk.go lines 186-188). -/
def FmtPercent (_neg : Bool) (s : List Char) (_v : Nat) : Option (List Char) :=
  some s

/-- Embedding of `rwk.FmtCurrency` (rwk.go lines 191-243). -/
def FmtCurrency : Bool → List Char → Nat → Nat → Option (List Char) :=
  fmtCurrencyBareShape (fmtLoopG1 decimal.data group.data) decimal.data
    minus.data currencies

/-- Embedding of `rwk.FmtAccounting` (rwk.go lines 247-307). -/
def FmtAccounting : Bool → List Char → Nat → Nat → Option (List Char) :=
  fmtAccountingBareShape (fmtLoopG1 decimal.data group.data) decimal.data
    minus.data currencies

/-- Embedding of `rwk.FmtTimeFull` (rwk.go lines 478-512). -/
def FmtTimeFull : GoTime → List Char :=
  fmtTimeFullPad24 timeSeparator.data timezones

end rwk

namespace saq_KE

/-- Symbols of saq_KE (saq_KE.go lines 44-54): `decimal`, `group`,
`minus` and `percent` are never set in New() and keep Go's zero value,
the empty string. -/
def decimal : String := ""

def group : String := ""

def minus : String := ""

def timeSeparator : String := ":"

def currencyNegativeMark : String := "("

def currencyNegativeSuffix : String := ")"

/-- Embedding of `saq_KE.FmtNumber` (saq_KE.go lines 183-186). -/
def FmtNumber (_neg : Bool) (s : List Char) (_v : Nat) : Option (List Char) :=
  some s

/-- Embedding of `saq_KE.FmtPercent` (saq_KE.go lines 190-192). -/
def FmtPercent (_neg : Bool) (s : List Char) (_v : Nat) : Option (List Char) :=
  some s

/-- Embedding of `saq_KE.FmtCurrency` (saq_KE.go lines 195-250). -/
def FmtCurrency : Bool → List Char → Nat → Nat → Option (List Char) :=
  fmtCurrencyPreShape (fmtLoopG1 decimal.data group.data) decimal.data
    minus.data currencies

/-- Embedding of `saq_KE.FmtAccounting` (saq_KE.go lines 253-315). -/
def FmtAccounting : Bool → List Char → Nat → Nat → Option (List Char) :=
  fmtAccountingPreShape (fmtLoopG1 decimal.data group.data) decimal.data
    currencyNegativeMark.data currencyNegativeSuffix.data currencies

/-- Embedding of `saq_KE.FmtTimeFull` (saq_KE.go lines 491-525). -/
def FmtTimeFull : GoTime → List Char :=
  fmtTimeFullPad24 timeSeparator.data timezones

end saq_KE

/-- Dispatcher for FmtCurrency over the locale implementations. -/
def FmtCurrencyOf : Loc → Bool → List Char → Nat → Nat → Option (List Char)
  | .bs => bs.FmtCurrency
  | .ksf_CM => ksf_CM.FmtCurrency
  | .ca_IT => ca_IT.FmtCurrency
  | .chr => chr.FmtCurrency
  | .es_US => es_US.FmtCurrency
  | .en_NU => en_NU.FmtCurrency
  | .kw => kw.FmtCurrency
  | .rwk => rwk.FmtCurrency
  | .saq_KE => saq_KE.FmtCurrency

/-- Dispatcher for FmtAccounting over the locale implementations. -/
def FmtAccountingOf : Loc → Bool → List Char → Nat → Nat → Option (List Char)
  | .bs => bs.FmtAccounting
  | .ksf_CM => ksf_CM.FmtAccounting
  | .ca_IT => ca_IT.FmtAccounting
  | .chr => chr.FmtAccounting
  | .es_US => es_US.FmtAccounting
  | .en_NU => en_NU.FmtAccounting
  | .kw => kw.FmtAccounting
  | .rwk => rwk.FmtAccounting
  | .saq_KE => saq_KE.FmtAccounting

/-- Dispatcher for FmtPercent over the locale implementations. -/
def FmtPercentOf : Loc → Bool → List Char → Nat → Option (List Char)
  | .bs => bs.FmtPercent
  | .ksf_CM => ksf_CM.FmtPercent
  | .ca_IT => ca_IT.FmtPercent
  | .chr => chr.FmtPercent
  | .es_US => es_US.FmtPercent
  | .en_NU => en_NU.FmtPercent
  | .kw => kw.FmtPercent
  | .rwk => rwk.FmtPercent
  | .saq_KE => saq_KE.FmtPercent

/-- Dispatcher for FmtTimeFull over the locale implementations. -/
def FmtTimeFullOf : Loc → GoTime → List Char
  | .bs => bs.FmtTimeFull
  | .ksf_CM => ksf_CM.FmtTimeFull
  | .ca_IT => ca_IT.FmtTimeFull
  | .chr => chr.FmtTimeFull
  | .es_US => es_US.FmtTimeFull
  | .en_NU => en_NU.FmtTimeFull
  | .kw => kw.FmtTimeFull
  | .rwk => rwk.FmtTimeFull
  | .saq_KE => saq_KE.FmtTimeFull

/-- Currency symbol table of each locale. -/
def currenciesOf : Loc → List String
  | .bs => bs.currencies
  | .ksf_CM => ksf_CM.currencies
  | .ca_IT => ca_IT.currencies
  | .chr => chr.currencies
  | .es_US => es_US.currencies
  | .en_NU => en_NU.currencies
  | .kw => kw.currencies
  | .rwk => rwk.currencies
  | .saq_KE => saq_KE.currencies

/-- Timezone table of each locale. -/
def timezonesOf : Loc → List (String × String)
  | .bs => bs.timezones
  | .ksf_CM => ksf_CM.timezones
  | .ca_IT => ca_IT.timezones
  | .chr => chr.timezones
  | .es_US => es_US.timezones
  | .en_NU => en_NU.timezones
  | .kw => kw.timezones
  | .rwk => rwk.timezones
  | .saq_KE => saq_KE.timezones

/-- Decimal symbol of each locale. -/
def decimalOf : Loc → String
  | .bs => bs.decimal
  | .ksf_CM => ksf_CM.decimal
  | .ca_IT => ca_IT.decimal
  | .chr => chr.decimal
  | .es_US => es_US.decimal
  | .en_NU => en_NU.decimal
  | .kw => kw.decimal
  | .rwk => rwk.decimal
  | .saq_KE => saq_KE.decimal

/-- Shape of the `strconv.FormatFloat(x, 'f', int(v), 64)` output for a
nonnegative finite `x`: a nonempty run of decimal digits, followed, when
`v > 0`, by a dot and exactly `v` decimal digits. -/
def FFShape (s : List Char) (v : Nat) : Prop :=
  ∃ W F, s = W ++ (if v = 0 then [] else '.' :: F) ∧ W ≠ [] ∧
    (∀ c ∈ W, c.isDigit) ∧ (∀ c ∈ F, c.isDigit) ∧ F.length = v

/-- A byte sequence that does not begin with a decimal digit (so the two
padded fraction digits before it are exactly the visible fraction
digits). -/
def noDigitStart (l : List Char) : Prop :=
  ∀ ch, l.head? = some ch → ch.isDigit = false

/-- Replacement of the ASCII decimal point by a locale's decimal symbol,
with no other change (in particular no grouping). -/
def replDot (d : Char) (s : List Char) : List Char :=
  s.map fun ch => if ch = '.' then d else ch

/-- Expected FmtPercent output per the amended claim C4: no locale groups
the whole part; the decimal point is localized; bs and es_US append the
percent-suffix (U+00A0) and the percent glyph, ca_IT, chr and en_NU append
only the glyph, and ksf_CM, kw, rwk, saq_KE return the bare numeral. -/
def expectedPercent : Loc → Bool → List Char → List Char
  | .bs, neg, s =>
      (if neg then ['-'] else []) ++ replDot ',' s ++ bs.percentSuffix.data ++ ['%']
  | .ksf_CM, _, s => s
  | .ca_IT, neg, s => (if neg then ['-'] else []) ++ replDot ',' s ++ ['%']
  | .chr, neg, s => (if neg then ['-'] else []) ++ replDot '.' s ++ ['%']
  | .es_US, neg, s =>
      (if neg then ['-'] else []) ++ replDot ',' s ++ es_US.percentSuffix.data ++ ['%']
  | .en_NU, neg, s => (if neg then ['-'] else []) ++ replDot '.' s ++ ['%']
  | .kw, _, s => s
  | .rwk, _, s => s
  | .saq_KE, _, s => s

theorem head?_append_left (l l' : List Char) (h : l ≠ []) :
    (l ++ l').head? = l.head? := by
  cases l <;> simp_all

theorem natDigitsCore_ne_nil :
    ∀ fuel n acc, 1 ≤ fuel → n < 10 ^ fuel → natDigitsCore fuel n acc ≠ [] := by
  intro fuel
  induction fuel with
  | zero => intro n acc h; omega
  | succ fuel ih =>
    intro n acc _ hlt
    simp only [natDigitsCore]
    split
    · simp
    · rename_i hn
      have hf : 1 ≤ fuel := by
        by_contra hf0
        have hz : fuel = 0 := by omega
        subst hz
        simp at hlt
        omega
      refine ih (n / 10) _ hf ?_
      refine Nat.div_lt_of_lt_mul ?_
      rw [pow_succ, mul_comm] at hlt
      exact hlt

theorem natDigits_ne_nil (n : Nat) : natDigits n ≠ [] := by
  refine natDigitsCore_ne_nil (n + 1) n [] (by omega) ?_
  calc n < 10 ^ n := Nat.lt_pow_self (by norm_num) n
    _ ≤ 10 ^ (n + 1) := Nat.pow_le_pow_right (by norm_num) (by omega)

theorem pctLoop_eq_map (d : Char) (l : List Char) :
    pctLoop [d] l = some (replDot d l) := by
  induction l with
  | nil => rfl
  | cons c rest ih =>
    by_cases hc : c = '.'
    · simp [pctLoop, hc, ih, replDot]
    · simp [pctLoop, hc, ih, replDot]

theorem fmtLoopG1_total (dec grp : List Char) (hdec : dec ≠ [])
    (hgrp : grp ≠ []) (l : List Char) :
    ∀ n w, ∃ r, fmtLoopG1 dec grp l n w = some r := by
  induction l with
  | nil => exact fun n w => ⟨[], rfl⟩
  | cons c rest ih =>
    intro n w
    rcases dec with _ | ⟨d, dtail⟩
    · exact absurd rfl hdec
    rcases grp with _ | ⟨g, gtail⟩
    · exact absurd rfl hgrp
    by_cases hc : c = '.'
    · obtain ⟨r, hr⟩ := ih n true
      exact ⟨d :: r, by simp [fmtLoopG1, hc, hr]⟩
    · cases w with
      | true =>
        by_cases hn : n = 3
        · obtain ⟨r, hr⟩ := ih 1 true
          exact ⟨g :: c :: r, by simp [fmtLoopG1, hc, hn, hr]⟩
        · obtain ⟨r, hr⟩ := ih (n + 1) true
          exact ⟨c :: r, by simp [fmtLoopG1, hc, hn, hr]⟩
      | false =>
        obtain ⟨r, hr⟩ := ih n false
        exact ⟨c :: r, by simp [fmtLoopG1, hc, hr]⟩

theorem fmtLoopG1_fracTail (dec grp : List Char) (F W : List Char)
    (hF : ∀ c ∈ F, c ≠ '.') (n : Nat) :
    fmtLoopG1 dec grp (F ++ '.' :: W) n false =
      dec.head?.bind fun d =>
        (fmtLoopG1 dec grp W n true).map fun r => F ++ d :: r := by
  induction F with
  | nil => simp [fmtLoopG1]
  | cons c F' ih =>
    have hc : c ≠ '.' := hF c (by simp)
    have ih' := ih (fun x hx => hF x (by simp [hx]))
    have step : fmtLoopG1 dec grp ((c :: F') ++ '.' :: W) n false =
        (fmtLoopG1 dec grp (F' ++ '.' :: W) n false).map fun r => c :: r := by
      simp [fmtLoopG1, hc]
    rw [List.cons_append] at step
    rw [List.cons_append, step, ih']
    cases dec.head? <;> cases fmtLoopG1 dec grp W n true <;> simp

theorem exact2_core (d0 : Char) (grp : List Char) (hgrp : grp ≠ [])
    (s : List Char) (v : Nat) (hs : FFShape s v) (hv : v < 2)
    (extra : List Char) :
    ∃ pre d1 d2 body,
      fmtLoopG1 [d0] grp s.reverse 0 (v == 0) = some body ∧
      d1.isDigit ∧ d2.isDigit ∧
      (body ++ extra).reverse ++ pad2 [d0] v = pre ++ [d0] ++ [d1, d2] := by
  obtain ⟨W, F, hsplit, hW, hWd, hFd, hFl⟩ := hs
  interval_cases v
  · obtain ⟨body, hbody⟩ :=
      fmtLoopG1_total [d0] grp (by simp) hgrp s.reverse 0 true
    refine ⟨(body ++ extra).reverse, '0', '0', body, hbody, by decide, by decide, ?_⟩
    simp [pad2, List.append_assoc]
  · rw [if_neg (by omega)] at hsplit
    obtain ⟨d, hFd1⟩ : ∃ d, F = [d] := by
      cases F with
      | nil => simp at hFl
      | cons a t =>
        cases t with
        | nil => exact ⟨a, rfl⟩
        | cons b u => simp at hFl
    subst hFd1
    have hdd : d.isDigit := hFd d (by simp)
    have hrev : s.reverse = [d] ++ '.' :: W.reverse := by
      rw [hsplit]; simp
    obtain ⟨r, hr⟩ := fmtLoopG1_total [d0] grp (by simp) hgrp W.reverse 0 true
    have hloop : fmtLoopG1 [d0] grp s.reverse 0 (1 == 0) = some (d :: d0 :: r) := by
      show fmtLoopG1 [d0] grp s.reverse 0 false = some (d :: d0 :: r)
      rw [hrev, fmtLoopG1_fracTail [d0] grp [d] W.reverse
        (by intro x hx; simp at hx; subst hx; intro hcon; rw [hcon] at hdd; simp at hdd) 0]
      simp [hr]
    refine ⟨extra.reverse ++ r.reverse, d, '0', d :: d0 :: r, hloop, hdd, by decide, ?_⟩
    simp [pad2, List.append_assoc]

theorem fmtCurrencySufShape_exact2 (d0 m0 : Char) (grp posSuf : List Char)
    (hgrp : grp ≠ []) (curs : List String) (neg : Bool) (s : List Char)
    (v c : Nat) (hs : FFShape s v) (hv : v < 2) (hc : c < curs.length) :
    ∃ pre d1 d2 sym, curs.get? c = some sym ∧ d1.isDigit ∧ d2.isDigit ∧
      fmtCurrencySufShape (fmtLoopG1 [d0] grp) [d0] [m0] posSuf curs neg s v c =
        some (pre ++ [d0] ++ [d1, d2] ++ (posSuf ++ sym.data)) := by
  have hsym : curs.get? c = some (curs.get ⟨c, hc⟩) := List.get?_eq_get hc
  cases neg with
  | false =>
    obtain ⟨pre, d1, d2, body, hloop, h1, h2, heq⟩ :=
      exact2_core d0 grp hgrp s v hs hv []
    rw [List.append_nil] at heq
    refine ⟨pre, d1, d2, _, hsym, h1, h2, ?_⟩
    have h3 := congrArg (fun l => l ++ (posSuf ++ (curs.get ⟨c, hc⟩).data)) heq
    simp only [List.append_assoc, List.cons_append, List.nil_append] at h3
    simp only [fmtCurrencySufShape, hsym, hloop, Option.some_bind,
      Bool.false_eq_true, if_false, Option.map_some', List.append_assoc,
      List.cons_append, List.nil_append]
    exact congrArg some h3
  | true =>
    obtain ⟨pre, d1, d2, body, hloop, h1, h2, heq⟩ :=
      exact2_core d0 grp hgrp s v hs hv [m0]
    refine ⟨pre, d1, d2, _, hsym, h1, h2, ?_⟩
    have h3 := congrArg (fun l => l ++ (posSuf ++ (curs.get ⟨c, hc⟩).data)) heq
    simp only [List.append_assoc, List.cons_append, List.nil_append] at h3
    simp only [fmtCurrencySufShape, hsym, hloop, Option.some_bind, if_true,
      List.head?_cons, Option.map_some', List.append_assoc,
      List.cons_append, List.nil_append]
    exact congrArg some h3

theorem fmtAccountingSufShape_exact2 (d0 k0 : Char) (grp posSuf negSuf : List Char)
    (hgrp : grp ≠ []) (curs : List String) (neg : Bool) (s : List Char)
    (v c : Nat) (hs : FFShape s v) (hv : v < 2) (hc : c < curs.length) :
    ∃ pre d1 d2 sym, curs.get? c = some sym ∧ d1.isDigit ∧ d2.isDigit ∧
      fmtAccountingSufShape (fmtLoopG1 [d0] grp) [d0] [k0] posSuf negSuf curs
          neg s v c =
        some (pre ++ [d0] ++ [d1, d2] ++
          ((if neg then negSuf else posSuf) ++ sym.data)) := by
  have hsym : curs.get? c = some (curs.get ⟨c, hc⟩) := List.get?_eq_get hc
  cases neg with
  | false =>
    obtain ⟨pre, d1, d2, body, hloop, h1, h2, heq⟩ :=
      exact2_core d0 grp hgrp s v hs hv []
    rw [List.append_nil] at heq
    refine ⟨pre, d1, d2, _, hsym, h1, h2, ?_⟩
    have h3 := congrArg (fun l => l ++ (posSuf ++ (curs.get ⟨c, hc⟩).data)) heq
    simp only [List.append_assoc, List.cons_append, List.nil_append] at h3
    simp only [fmtAccountingSufShape, hsym, hloop, Option.some_bind,
      Bool.false_eq_true, if_false, Option.map_some', List.append_assoc,
      List.cons_append, List.nil_append]
    exact congrArg some h3
  | true =>
    obtain ⟨pre, d1, d2, body, hloop, h1, h2, heq⟩ :=
      exact2_core d0 grp hgrp s v hs hv [k0]
    refine ⟨pre, d1, d2, _, hsym, h1, h2, ?_⟩
    have h3 := congrArg (fun l => l ++ (negSuf ++ (curs.get ⟨c, hc⟩).data)) heq
    simp only [List.append_assoc, List.cons_append, List.nil_append] at h3
    simp only [fmtAccountingSufShape, hsym, hloop, Option.some_bind, if_true,
      List.head?_cons, Option.map_some', List.append_assoc,
      List.cons_append, List.nil_append]
    exact congrArg some h3

theorem fmtCurrencyPreShape_exact2 (d0 m0 : Char) (grp : List Char)
    (hgrp : grp ≠ []) (curs : List String) (neg : Bool) (s : List Char)
    (v c : Nat) (hs : FFShape s v) (hv : v < 2) (hc : c < curs.length) :
    ∃ pre d1 d2,
      d1.isDigit ∧ d2.isDigit ∧
      fmtCurrencyPreShape (fmtLoopG1 [d0] grp) [d0] [m0] curs neg s v c =
        some (pre ++ [d0] ++ [d1, d2]) := by
  have hsym : curs.get? c = some (curs.get ⟨c, hc⟩) := List.get?_eq_get hc
  cases neg with
  | false =>
    obtain ⟨pre, d1, d2, body, hloop, h1, h2, heq⟩ :=
      exact2_core d0 grp hgrp s v hs hv (curs.get ⟨c, hc⟩).data.reverse
    refine ⟨pre, d1, d2, h1, h2, ?_⟩
    simp only [List.append_assoc, List.cons_append, List.nil_append] at heq
    simp only [fmtCurrencyPreShape, hsym, hloop, Option.some_bind,
      Bool.false_eq_true, if_false, Option.map_some', List.append_assoc,
      List.cons_append, List.nil_append]
    exact congrArg some heq
  | true =>
    obtain ⟨pre, d1, d2, body, hloop, h1, h2, heq⟩ :=
      exact2_core d0 grp hgrp s v hs hv
        ((curs.get ⟨c, hc⟩).data.reverse ++ [m0])
    refine ⟨pre, d1, d2, h1, h2, ?_⟩
    simp only [List.append_assoc, List.cons_append, List.nil_append] at heq
    simp only [fmtCurrencyPreShape, hsym, hloop, Option.some_bind, if_true,
      List.head?_cons, Option.map_some', List.append_assoc,
      List.cons_append, List.nil_append]
    exact congrArg some heq

theorem fmtAccountingPreShape_exact2 (d0 k0 : Char) (grp negSuf : List Char)
    (hgrp : grp ≠ []) (curs : List String) (neg : Bool) (s : List Char)
    (v c : Nat) (hs : FFShape s v) (hv : v < 2) (hc : c < curs.length) :
    ∃ pre d1 d2,
      d1.isDigit ∧ d2.isDigit ∧
      fmtAccountingPreShape (fmtLoopG1 [d0] grp) [d0] [k0] negSuf curs neg s v c =
        some (pre ++ [d0] ++ [d1, d2] ++ (if neg then negSuf else [])) := by
  have hsym : curs.get? c = some (curs.get ⟨c, hc⟩) := List.get?_eq_get hc
  cases neg with
  | false =>
    obtain ⟨pre, d1, d2, body, hloop, h1, h2, heq⟩ :=
      exact2_core d0 grp hgrp s v hs hv (curs.get ⟨c, hc⟩).data.reverse
    refine ⟨pre, d1, d2, h1, h2, ?_⟩
    have h3 := congrArg (fun l => l ++ ([] : List Char)) heq
    simp only [List.append_assoc, List.cons_append, List.nil_append,
      List.append_nil] at h3
    simp only [fmtAccountingPreShape, hsym, hloop, Option.some_bind,
      Bool.false_eq_true, if_false, Option.map_some', List.append_assoc,
      List.cons_append, List.nil_append, List.append_nil]
    exact congrArg some h3
  | true =>
    obtain ⟨pre, d1, d2, body, hloop, h1, h2, heq⟩ :=
      exact2_core d0 grp hgrp s v hs hv
        ((curs.get ⟨c, hc⟩).data.reverse ++ [k0])
    refine ⟨pre, d1, d2, h1, h2, ?_⟩
    have h3 := congrArg (fun l => l ++ negSuf) heq
    simp only [List.append_assoc, List.cons_append, List.nil_append] at h3
    simp only [fmtAccountingPreShape, hsym, hloop, Option.some_bind, if_true,
      List.head?_cons, Option.map_some', List.append_assoc,
      List.cons_append, List.nil_append]
    exact congrArg some h3

theorem tzName_eq_getD (tzs : List (String × String)) (z : String) :
    tzName tzs z = ((List.lookup z tzs).getD z).data := by
  unfold tzName
  cases List.lookup z tzs <;> simp [Option.getD]

theorem noDigitStart_of_head (l : List Char) (ch0 : Char)
    (h : l.head? = some ch0) (hd : ch0.isDigit = false) : noDigitStart l := by
  intro ch hch
  rw [h] at hch
  cases hch
  exact hd

theorem noDigitStart_nil : noDigitStart [] := by
  intro ch hch
  simp at hch
/-- C2 counterexample: ksf_CM's cardinal evaluator returns Unknown, a
category outside its declared `PluralsCardinal()` set (which is empty)
and different from Other, refuting the claim as stated. -/
theorem claim_C2_counterexample :
    ksf_CM.CardinalPluralRule 1 0 = PluralRule.unknown ∧
      PluralRule.unknown ∉ ksf_CM.pluralsCardinal ++ [PluralRule.other] := by
  decide

/-- C2 (amended): for every locale implementation that declares a
nonempty cardinal category list, `CardinalPluralRule(n, 0)` at any integer
`n` returns a category in the declared list or Other; the one locale with
an empty declared list (ksf_CM) returns Unknown unconditionally. -/
theorem claim_C2_amended (L : Loc) (n : Int) :
    cardinalAtInt L n ∈ allowedCardinal L := by
  cases L <;>
    simp only [cardinalAtInt, allowedCardinal, pluralsCardinalOf,
      bs.pluralsCardinal, ksf_CM.pluralsCardinal, ca_IT.pluralsCardinal,
      chr.pluralsCardinal, es_US.pluralsCardinal, en_NU.pluralsCardinal,
      kw.pluralsCardinal, rwk.pluralsCardinal, saq_KE.pluralsCardinal,
      bs.CardinalPluralRule, ksf_CM.CardinalPluralRule,
      ca_IT.CardinalPluralRule, chr.CardinalPluralRule,
      es_US.CardinalPluralRule, en_NU.CardinalPluralRule,
      kw.CardinalPluralRule, rwk.CardinalPluralRule,
      saq_KE.CardinalPluralRule] <;>
    (repeat' split) <;> decide

/-- C5 counterexample: bs's ordinal rule at 3 (with v = 0) returns Other,
not Few, refuting the claim as stated. -/
theorem claim_C5_counterexample :
    bs.OrdinalPluralRule 3 0 = PluralRule.other ∧
      PluralRule.other ≠ PluralRule.few := by
  decide

/-- C5 (amended): for the locale bs it is the cardinal rule that sends 3
(with zero visible fraction digits) to Few, via the declared residue
predicate (iMod10 in {2,3,4} and iMod100 outside [12,14]); the ordinal
rule, whose declared category list is exactly {other}, returns Other. -/
theorem claim_C5_amended :
    bs.CardinalPluralRule 3 0 0 = PluralRule.few ∧
      bs.OrdinalPluralRule 3 0 = PluralRule.other ∧
      bs.pluralsOrdinal = [PluralRule.other] := by
  decide

/-- C6: bs's `RangePluralRule` is a function of the pair of cardinal
categories of the two endpoints alone, resolved through the fixed
(start, end) table `bsRangeTable`, and every combination not listed in
that table yields Other. -/
theorem claim_C6 :
    (∀ i1 v1 f1 i2 v2 f2,
        bs.RangePluralRule i1 v1 f1 i2 v2 f2 =
          bsRangeCombine (bs.CardinalPluralRule i1 v1 f1)
            (bs.CardinalPluralRule i2 v2 f2)) ∧
      (∀ a b : PluralRule,
        List.lookup (a, b) bsRangeTable = none → bsRangeCombine a b = .other) := by
  constructor
  · intro i1 v1 f1 i2 v2 f2
    unfold bs.RangePluralRule
    generalize bs.CardinalPluralRule i1 v1 f1 = a
    generalize bs.CardinalPluralRule i2 v2 f2 = b
    cases a <;> cases b <;> decide
  · intro a b h
    simp [bsRangeCombine, h]

theorem strData_comma : (",").data = [','] := rfl

theorem strData_dot : (".").data = ['.'] := rfl

theorem strData_minus : ("-").data = ['-'] := rfl

theorem strData_pct : ("%").data = ['%'] := rfl

theorem strData_colon : (":").data = [':'] := rfl

theorem replDot_reverse (d : Char) (s : List Char) :
    (replDot d s.reverse).reverse = replDot d s := by
  simp [replDot, List.map_reverse]

/-- C1: the claim states that no formatting branch of any locale can
panic, and in particular that ksf_CM's FmtNumber is safe on negative num.
The code contradicts it: ksf_CM's New() never sets `minus`, so on any
negative input `ksf.minus[0]` indexes the empty string and panics
(num = -1, v = 0, for which FormatFloat yields "1").  The spec (§7) is
the evident intent and the missing `minus` entry a data slip, so this is
recorded as a code bug; this theorem evaluates the embedded code at the
failing input. -/
theorem claim_C1_code_eval : ksf_CM.FmtNumber true ("1".data) 0 = none := rfl

/-- C3 counterexample: the claim as stated quantifies over every locale,
but kw (whose descriptor leaves `decimal` empty) panics in FmtCurrency as
soon as the requested precision puts a decimal point in the numeral
(num = 1.5, v = 1), and ksf_CM (whose descriptor leaves `minus` empty)
panics on any negative amount; in neither case is there a result with two
fraction digits. -/
theorem claim_C3_counterexample :
    kw.FmtCurrency false ("1.5".data) 1 0 = none ∧
      ksf_CM.FmtCurrency true ("1".data) 0 0 = none :=
  ⟨rfl, rfl⟩

/-- C3 (amended): for the locales whose descriptors define the needed
decimal and minus symbols (bs, ca_IT, chr, es_US, en_NU), FmtCurrency and
FmtAccounting called with precision v < 2 produce a string containing the
locale's decimal symbol followed by exactly two fraction digits (the
decimal symbol being inserted by the padding block itself when v = 0),
with whatever follows those two digits not starting in a digit; the
locales with empty symbol data (ksf_CM on negative input, kw, rwk,
saq_KE) can panic instead. -/
theorem claim_C3_amended (L : Loc)
    (hL : L ∈ [Loc.bs, Loc.ca_IT, Loc.chr, Loc.es_US, Loc.en_NU])
    (neg : Bool) (s : List Char) (v c : Nat)
    (hs : FFShape s v) (hv : v < 2) (hc : c < (currenciesOf L).length) :
    (∃ pre d1 d2 suf,
        FmtCurrencyOf L neg s v c =
          some (pre ++ (decimalOf L).data ++ [d1, d2] ++ suf) ∧
        d1.isDigit ∧ d2.isDigit ∧ noDigitStart suf) ∧
    (∃ pre d1 d2 suf,
        FmtAccountingOf L neg s v c =
          some (pre ++ (decimalOf L).data ++ [d1, d2] ++ suf) ∧
        d1.isDigit ∧ d2.isDigit ∧ noDigitStart suf) := by
  fin_cases hL
  · constructor
    · obtain ⟨pre, d1, d2, sym, hsym, h1, h2, heq⟩ :=
        fmtCurrencySufShape_exact2 ',' '-' (".".data)
          (bs.currencyPositiveSuffix.data) (by decide) bs.currencies
          neg s v c hs hv hc
      exact ⟨pre, d1, d2, bs.currencyPositiveSuffix.data ++ sym.data, heq, h1, h2,
        noDigitStart_of_head _ ' '
          (by rw [head?_append_left _ _ (by decide)]; decide) (by decide)⟩
    · obtain ⟨pre, d1, d2, sym, hsym, h1, h2, heq⟩ :=
        fmtAccountingSufShape_exact2 ',' '-' (".".data)
          (bs.currencyPositiveSuffix.data) (bs.currencyNegativeSuffix.data)
          (by decide) bs.currencies neg s v c hs hv hc
      refine ⟨pre, d1, d2,
        (if neg then bs.currencyNegativeSuffix.data
         else bs.currencyPositiveSuffix.data) ++ sym.data, heq, h1, h2, ?_⟩
      cases neg <;>
        exact noDigitStart_of_head _ ' '
          (by rw [head?_append_left _ _ (by decide)]; decide) (by decide)
  · constructor
    · obtain ⟨pre, d1, d2, sym, hsym, h1, h2, heq⟩ :=
        fmtCurrencySufShape_exact2 ',' '-' (".".data)
          (ca_IT.currencyPositiveSuffix.data) (by decide) ca_IT.currencies
          neg s v c hs hv hc
      exact ⟨pre, d1, d2, ca_IT.currencyPositiveSuffix.data ++ sym.data, heq, h1, h2,
        noDigitStart_of_head _ ' '
          (by rw [head?_append_left _ _ (by decide)]; decide) (by decide)⟩
    · obtain ⟨pre, d1, d2, sym, hsym, h1, h2, heq⟩ :=
        fmtAccountingSufShape_exact2 ',' '(' (".".data)
          (ca_IT.currencyPositiveSuffix.data) (ca_IT.currencyNegativeSuffix.data)
          (by decide) ca_IT.currencies neg s v c hs hv hc
      refine ⟨pre, d1, d2,
        (if neg then ca_IT.currencyNegativeSuffix.data
         else ca_IT.currencyPositiveSuffix.data) ++ sym.data, heq, h1, h2, ?_⟩
      cases neg <;>
        exact noDigitStart_of_head _ ' '
          (by rw [head?_append_left _ _ (by decide)]; decide) (by decide)
  · constructor
    · obtain ⟨pre, d1, d2, h1, h2, heq⟩ :=
        fmtCurrencyPreShape_exact2 '.' '-' (",".data) (by decide) chr.currencies
          neg s v c hs hv hc
      refine ⟨pre, d1, d2, [], ?_, h1, h2, noDigitStart_nil⟩
      rw [List.append_nil]
      exact heq
    · obtain ⟨pre, d1, d2, h1, h2, heq⟩ :=
        fmtAccountingPreShape_exact2 '.' '(' (",".data)
          (chr.currencyNegativeSuffix.data) (by decide) chr.currencies
          neg s v c hs hv hc
      refine ⟨pre, d1, d2, (if neg then chr.currencyNegativeSuffix.data else []),
        heq, h1, h2, ?_⟩
      cases neg
      · exact noDigitStart_nil
      · exact noDigitStart_of_head _ ')' (by decide) (by decide)
  · constructor
    · obtain ⟨pre, d1, d2, sym, hsym, h1, h2, heq⟩ :=
        fmtCurrencySufShape_exact2 ',' '-' (".".data)
          (es_US.currencyPositiveSuffix.data) (by decide) es_US.currencies
          neg s v c hs hv hc
      exact ⟨pre, d1, d2, es_US.currencyPositiveSuffix.data ++ sym.data, heq, h1, h2,
        noDigitStart_of_head _ ' '
          (by rw [head?_append_left _ _ (by decide)]; decide) (by decide)⟩
    · obtain ⟨pre, d1, d2, sym, hsym, h1, h2, heq⟩ :=
        fmtAccountingSufShape_exact2 ',' '-' (".".data)
          (es_US.currencyPositiveSuffix.data) (es_US.currencyNegativeSuffix.data)
          (by decide) es_US.currencies neg s v c hs hv hc
      refine ⟨pre, d1, d2,
        (if neg then es_US.currencyNegativeSuffix.data
         else es_US.currencyPositiveSuffix.data) ++ sym.data, heq, h1, h2, ?_⟩
      cases neg <;>
        exact noDigitStart_of_head _ ' '
          (by rw [head?_append_left _ _ (by decide)]; decide) (by decide)
  · constructor
    · obtain ⟨pre, d1, d2, h1, h2, heq⟩ :=
        fmtCurrencyPreShape_exact2 '.' '-' (",".data) (by decide) en_NU.currencies
          neg s v c hs hv hc
      refine ⟨pre, d1, d2, [], ?_, h1, h2, noDigitStart_nil⟩
      rw [List.append_nil]
      exact heq
    · obtain ⟨pre, d1, d2, h1, h2, heq⟩ :=
        fmtAccountingPreShape_exact2 '.' '(' (",".data)
          (en_NU.currencyNegativeSuffix.data) (by decide) en_NU.currencies
          neg s v c hs hv hc
      refine ⟨pre, d1, d2, (if neg then en_NU.currencyNegativeSuffix.data else []),
        heq, h1, h2, ?_⟩
      cases neg
      · exact noDigitStart_nil
      · exact noDigitStart_of_head _ ')' (by decide) (by decide)

set_option maxRecDepth 8000 in
/-- C3 witness: the amended claim applied to the locale bs at num = 1,
v = 0, currency index 0. -/
theorem claim_C3_witness :
    Loc.bs ∈ [Loc.bs, Loc.ca_IT, Loc.chr, Loc.es_US, Loc.en_NU] ∧
    FFShape ("1".data) 0 ∧ (0 : Nat) < 2 ∧ 0 < (currenciesOf Loc.bs).length ∧
    ((∃ pre d1 d2 suf,
        FmtCurrencyOf Loc.bs false ("1".data) 0 0 =
          some (pre ++ (decimalOf Loc.bs).data ++ [d1, d2] ++ suf) ∧
        d1.isDigit ∧ d2.isDigit ∧ noDigitStart suf) ∧
     (∃ pre d1 d2 suf,
        FmtAccountingOf Loc.bs false ("1".data) 0 0 =
          some (pre ++ (decimalOf Loc.bs).data ++ [d1, d2] ++ suf) ∧
        d1.isDigit ∧ d2.isDigit ∧ noDigitStart suf)) := by
  have hs : FFShape ("1".data) 0 :=
    ⟨['1'], [], rfl, by decide, by decide, by decide, rfl⟩
  exact ⟨by decide, hs, by decide, by decide,
    claim_C3_amended Loc.bs (by decide) false ("1".data) 0 0 hs (by decide)
      (by decide)⟩

/-- C4 counterexample: the claim says FmtPercent applies the same
thousands grouping as FmtNumber, but bs.FmtPercent(1234, 0) yields
"1234 %" (U+00A0 before the glyph) with no group separator, while
bs.FmtNumber(1234, 0) yields "1.234": the percent output does not even
begin with the grouped whole part. -/
theorem claim_C4_counterexample :
    bs.FmtPercent false ("1234".data) 0 = some (("1234\u00A0%").data) ∧
      bs.FmtNumber false ("1234".data) 0 = some (("1.234").data) ∧
      (("1.234").data).isPrefixOf (("1234\u00A0%").data) = false := by
  refine ⟨?_, ?_, ?_⟩ <;> decide

/-- C4 (amended): no locale's FmtPercent applies thousands grouping: the
whole part is emitted with its digits contiguous and only the decimal
point localized; bs and es_US then append the percent-suffix (U+00A0) and
the percent glyph, ca_IT, chr and en_NU append only the glyph, and
ksf_CM, kw, rwk and saq_KE (which define no percent glyph) return the
bare numeral unchanged. -/
theorem claim_C4_amended (L : Loc) (neg : Bool) (s : List Char) (v : Nat) :
    FmtPercentOf L neg s v = some (expectedPercent L neg s) := by
  cases L <;> cases neg <;>
    simp [FmtPercentOf, expectedPercent, bs.FmtPercent, ksf_CM.FmtPercent,
      ca_IT.FmtPercent, chr.FmtPercent, es_US.FmtPercent, en_NU.FmtPercent,
      kw.FmtPercent, rwk.FmtPercent, saq_KE.FmtPercent, fmtPercentSufShape,
      fmtPercentShape, bs.decimal, bs.minus, bs.percent, bs.percentSuffix,
      ca_IT.decimal, ca_IT.minus, ca_IT.percent, chr.decimal, chr.minus,
      chr.percent, es_US.decimal, es_US.minus, es_US.percent,
      es_US.percentSuffix, en_NU.decimal, en_NU.minus, en_NU.percent,
      strData_comma, strData_dot, strData_minus, strData_pct, Function.comp,
      pctLoop_eq_map, replDot_reverse, List.reverse_append, List.append_assoc]

/-- C9: for every locale implementation in the source, FmtAccounting on a
non-negative amount (the Go test num < 0 is false) is byte-identical to
FmtCurrency at the same arguments: the two differ only in the
negative-amount branches. -/
theorem claim_C9 (L : Loc) (s : List Char) (v c : Nat) :
    FmtAccountingOf L false s v c = FmtCurrencyOf L false s v c := by
  cases L <;> rfl

/-- C7: for every locale (each carries a timezone table) and every
timestamp, FmtTimeFull ends with the timezone abbreviation resolved
through the locale's abbreviation-to-name table, and when the
abbreviation is absent from the table the raw abbreviation itself is
emitted unchanged in its place. -/
theorem claim_C7 (L : Loc) (t : GoTime) :
    ∃ p, FmtTimeFullOf L t =
      p ++ ((List.lookup t.zone (timezonesOf L)).getD t.zone).data := by
  cases L <;>
    exact ⟨_, by
      simp only [FmtTimeFullOf, timezonesOf, bs.FmtTimeFull, ksf_CM.FmtTimeFull,
        ca_IT.FmtTimeFull, chr.FmtTimeFull, es_US.FmtTimeFull,
        en_NU.FmtTimeFull, kw.FmtTimeFull, rwk.FmtTimeFull, saq_KE.FmtTimeFull,
        fmtTimeFullPad24, fmtTimeFullBareHour, fmtTimeFull12h, tzName_eq_getD]
      rfl⟩

/-- C8 counterexample: the claim says every chr time variant renders the
hour within the 1-12 range, but at midnight (hour-of-day 0) the code
leaves the hour as 0: FmtTimeShort renders "0:05 ᏌᎾᎴ", whose hour field
is the rendering of no hour in 1..12. -/
theorem claim_C8_counterexample :
    chr.FmtTimeShort ⟨2020, 1, 1, 0, 5, 0, "GMT"⟩ = ("0:05 ᏌᎾᎴ").data ∧
      ¬ ∃ (h : Nat) (r : List Char), 1 ≤ h ∧ h ≤ 12 ∧
          chr.FmtTimeShort ⟨2020, 1, 1, 0, 5, 0, "GMT"⟩ =
            natDigits h ++ ':' :: r := by
  have e : chr.FmtTimeShort ⟨2020, 1, 1, 0, 5, 0, "GMT"⟩ = ("0:05 ᏌᎾᎴ").data := by
    decide
  refine ⟨e, ?_⟩
  rintro ⟨h, r, hh1, hh2, heq⟩
  rw [e] at heq
  have hhd : (("0:05 ᏌᎾᎴ").data).head? = (natDigits h).head? := by
    rw [heq]
    exact head?_append_left _ _ (natDigits_ne_nil h)
  have h0 : (natDigits h).head? = some '0' := by rw [← hhd]; rfl
  interval_cases h <;> exact absurd h0 (by decide)

/-- C8 (amended): for the 12-hour locale chr, every time variant renders
the display hour `if hour > 12 then hour - 12 else hour`, which lies in
0..12 (midnight renders as 0, not 12), followed by the time separator,
and appends the first period name ᏌᎾᎴ when the hour-of-day is below 12
and the second period name ᏒᎯᏱᎢᏗᏢ otherwise (in Long and Full the period
name is followed by a space and the timezone part). -/
theorem claim_C8_amended (t : GoTime) (ht : t.hour < 24) :
    (if t.hour > 12 then t.hour - 12 else t.hour) ≤ 12 ∧
    (∃ r, chr.FmtTimeShort t =
        natDigits (if t.hour > 12 then t.hour - 12 else t.hour) ++ ':' :: r) ∧
    (∃ r, chr.FmtTimeMedium t =
        natDigits (if t.hour > 12 then t.hour - 12 else t.hour) ++ ':' :: r) ∧
    (∃ r, chr.FmtTimeLong t =
        natDigits (if t.hour > 12 then t.hour - 12 else t.hour) ++ ':' :: r) ∧
    (∃ r, chr.FmtTimeFull t =
        natDigits (if t.hour > 12 then t.hour - 12 else t.hour) ++ ':' :: r) ∧
    (∃ p, chr.FmtTimeShort t =
        p ++ (if t.hour < 12 then ("ᏌᎾᎴ").data else ("ᏒᎯᏱᎢᏗᏢ").data)) ∧
    (∃ p, chr.FmtTimeMedium t =
        p ++ (if t.hour < 12 then ("ᏌᎾᎴ").data else ("ᏒᎯᏱᎢᏗᏢ").data)) ∧
    (∃ p q, chr.FmtTimeLong t =
        p ++ (if t.hour < 12 then ("ᏌᎾᎴ").data else ("ᏒᎯᏱᎢᏗᏢ").data) ++
          ' ' :: q) ∧
    (∃ p q, chr.FmtTimeFull t =
        p ++ (if t.hour < 12 then ("ᏌᎾᎴ").data else ("ᏒᎯᏱᎢᏗᏢ").data) ++
          ' ' :: q) := by
  refine ⟨by split <;> omega, ?_, ?_, ?_, ?_, ?_, ?_, ?_, ?_⟩
  · exact ⟨pad0 t.minute ++ ' ' :: periodOf chr.periodsAbbreviated t.hour, by
      simp [chr.FmtTimeShort, fmtTimeShort12h, hour12, chr.timeSeparator,
        strData_colon, List.append_assoc]⟩
  · exact ⟨pad0 t.minute ++ ':' :: pad0 t.second ++
        ' ' :: periodOf chr.periodsAbbreviated t.hour, by
      simp [chr.FmtTimeMedium, fmtTimeMedium12h, hour12, chr.timeSeparator,
        strData_colon, List.append_assoc]⟩
  · exact ⟨pad0 t.minute ++ ':' :: pad0 t.second ++
        ' ' :: (periodOf chr.periodsAbbreviated t.hour ++ ' ' :: t.zone.data), by
      simp [chr.FmtTimeLong, fmtTimeLong12h, hour12, chr.timeSeparator,
        strData_colon, List.append_assoc]⟩
  · exact ⟨pad0 t.minute ++ ':' :: pad0 t.second ++
        ' ' :: (periodOf chr.periodsAbbreviated t.hour ++
          ' ' :: tzName chr.timezones t.zone), by
      simp [chr.FmtTimeFull, fmtTimeFull12h, hour12, chr.timeSeparator,
        strData_colon, List.append_assoc]⟩
  · exact ⟨natDigits (hour12 t.hour) ++ ':' :: pad0 t.minute ++ [' '], by
      simp [chr.FmtTimeShort, fmtTimeShort12h, hour12, chr.timeSeparator,
        periodOf, chr.periodsAbbreviated, List.getD, strData_colon,
        List.append_assoc]⟩
  · exact ⟨natDigits (hour12 t.hour) ++ ':' :: pad0 t.minute ++
        ':' :: pad0 t.second ++ [' '], by
      simp [chr.FmtTimeMedium, fmtTimeMedium12h, hour12, chr.timeSeparator,
        periodOf, chr.periodsAbbreviated, List.getD, strData_colon,
        List.append_assoc]⟩
  · exact ⟨natDigits (hour12 t.hour) ++ ':' :: pad0 t.minute ++
        ':' :: pad0 t.second ++ [' '], t.zone.data, by
      simp [chr.FmtTimeLong, fmtTimeLong12h, hour12, chr.timeSeparator,
        periodOf, chr.periodsAbbreviated, List.getD, strData_colon,
        List.append_assoc]⟩
  · exact ⟨natDigits (hour12 t.hour) ++ ':' :: pad0 t.minute ++
        ':' :: pad0 t.second ++ [' '], tzName chr.timezones t.zone, by
      simp [chr.FmtTimeFull, fmtTimeFull12h, hour12, chr.timeSeparator,
        periodOf, chr.periodsAbbreviated, List.getD, strData_colon,
        List.append_assoc]⟩

/-- C8 witness: the amended claim applied at 3:05:07 GMT. -/
theorem claim_C8_witness :
    (⟨2020, 1, 1, 3, 5, 7, "GMT"⟩ : GoTime).hour < 24 ∧
    ((if (3 : Nat) > 12 then 3 - 12 else 3) ≤ 12 ∧
    (∃ r, chr.FmtTimeShort ⟨2020, 1, 1, 3, 5, 7, "GMT"⟩ =
        natDigits (if (3 : Nat) > 12 then 3 - 12 else 3) ++ ':' :: r) ∧
    (∃ r, chr.FmtTimeMedium ⟨2020, 1, 1, 3, 5, 7, "GMT"⟩ =
        natDigits (if (3 : Nat) > 12 then 3 - 12 else 3) ++ ':' :: r) ∧
    (∃ r, chr.FmtTimeLong ⟨2020, 1, 1, 3, 5, 7, "GMT"⟩ =
        natDigits (if (3 : Nat) > 12 then 3 - 12 else 3) ++ ':' :: r) ∧
    (∃ r, chr.FmtTimeFull ⟨2020, 1, 1, 3, 5, 7, "GMT"⟩ =
        natDigits (if (3 : Nat) > 12 then 3 - 12 else 3) ++ ':' :: r) ∧
    (∃ p, chr.FmtTimeShort ⟨2020, 1, 1, 3, 5, 7, "GMT"⟩ =
        p ++ (if (3 : Nat) < 12 then ("ᏌᎾᎴ").data else ("ᏒᎯᏱᎢᏗᏢ").data)) ∧
    (∃ p, chr.FmtTimeMedium ⟨2020, 1, 1, 3, 5, 7, "GMT"⟩ =
        p ++ (if (3 : Nat) < 12 then ("ᏌᎾᎴ").data else ("ᏒᎯᏱᎢᏗᏢ").data)) ∧
    (∃ p q, chr.FmtTimeLong ⟨2020, 1, 1, 3, 5, 7, "GMT"⟩ =
        p ++ (if (3 : Nat) < 12 then ("ᏌᎾᎴ").data else ("ᏒᎯᏱᎢᏗᏢ").data) ++
          ' ' :: q) ∧
    (∃ p q, chr.FmtTimeFull ⟨2020, 1, 1, 3, 5, 7, "GMT"⟩ =
        p ++ (if (3 : Nat) < 12 then ("ᏌᎾᎴ").data else ("ᏒᎯᏱᎢᏗᏢ").data) ++
          ' ' :: q)) :=
  ⟨by decide, claim_C8_amended ⟨2020, 1, 1, 3, 5, 7, "GMT"⟩ (by decide)⟩

/-- C10: for bs and chr, FmtDateShort at any year from 1 through 99 emits
an empty year field and does not panic: the truncation drops the decimal
digits of the year after index 2 (after index 1 for years at most 9),
which is every digit the year has, and the Go slice expression stays in
bounds. -/
theorem claim_C10 (t : GoTime) (h1 : 1 ≤ t.year) (h2 : t.year ≤ 99) :
    bs.FmtDateShort t =
      some (natDigits t.day ++ ['.'] ++ natDigits t.month ++ ['.'] ++ ['.']) ∧
    chr.FmtDateShort t =
      some (natDigits t.month ++ ['/'] ++ natDigits t.day ++ ['/']) := by
  have key : ∀ m, m < 100 → 1 ≤ m →
      ((9 < m → goSliceFrom (natDigits m) 2 = some []) ∧
       (¬ 9 < m → goSliceFrom (natDigits m) 1 = some [])) := by decide
  have hy0 : ¬ t.year < 0 := by omega
  have hm100 : t.year.toNat < 100 := by omega
  have hm1 : 1 ≤ t.year.toNat := by omega
  have hiy : itoaInt t.year = natDigits t.year.toNat := by
    rw [itoaInt, if_neg hy0]
  have hyt : (if t.year > 9 then goSliceFrom (itoaInt t.year) 2
      else goSliceFrom (itoaInt t.year) 1) = some [] := by
    by_cases hg : t.year > 9
    · rw [if_pos hg, hiy]
      exact (key t.year.toNat hm100 hm1).1 (by omega)
    · rw [if_neg hg, hiy]
      exact (key t.year.toNat hm100 hm1).2 (by omega)
  constructor
  · simp only [bs.FmtDateShort, hyt, Option.map_some']
    simp [List.append_assoc]
  · simp only [chr.FmtDateShort, hyt, Option.map_some']
    simp [List.append_assoc]

/-- C10 witness: the claim applied at 3 February of year 85. -/
theorem claim_C10_witness :
    (1 : Int) ≤ (⟨85, 2, 3, 0, 0, 0, ""⟩ : GoTime).year ∧
    (⟨85, 2, 3, 0, 0, 0, ""⟩ : GoTime).year ≤ 99 ∧
    (bs.FmtDateShort ⟨85, 2, 3, 0, 0, 0, ""⟩ =
        some (natDigits 3 ++ ['.'] ++ natDigits 2 ++ ['.'] ++ ['.']) ∧
     chr.FmtDateShort ⟨85, 2, 3, 0, 0, 0, ""⟩ =
        some (natDigits 2 ++ ['/'] ++ natDigits 3 ++ ['/'])) :=
  ⟨by decide, by decide, claim_C10 ⟨85, 2, 3, 0, 0, 0, ""⟩ (by decide) (by decide)⟩
